import Mathlib

/-!
Shallow embedding of the HAR-automation ingestion-and-decision pipeline
(src/src/parser/table_parser.py, src/src/parser/schema_loader.py,
src/src/pipeline/condition_matcher.py, src/src/pipeline/decision_engine.py,
src/src/models/*). Python strings are Lean `String`s (ASCII inputs), Python
floats are `ℚ` (the numeric literals the pipeline compares against are all
exactly representable and the comparisons never sit on a rounding boundary),
`None`-able fields are `Option`, raised exceptions are `Except String`.
-/

/-- Python whitespace class used by the `\s` regex class and `str.strip` /
`str.split()`: space, tab, newline, carriage return, form feed, vertical tab. -/
def pyIsSpace (c : Char) : Bool :=
  c = ' ' || c = '\t' || c = '\n' || c = '\x0d' || c = '\x0c' || c = '\x0b'

/-- Regex `\w` word class (ASCII fragment): letters, digits, underscore. -/
def pyIsWord (c : Char) : Bool :=
  c.isAlpha || c.isDigit || c = '_'

/-- Python `needle in hay` for strings: substring containment. -/
def strContains (hay needle : String) : Bool :=
  (List.range (hay.data.length + 1)).any fun i =>
    needle.data.isPrefixOf (hay.data.drop i)

/-- Python `s.startswith(p)`. -/
def strStarts (s p : String) : Bool := p.data.isPrefixOf s.data

/-- Python `s.endswith(p)`. -/
def strEnds (s p : String) : Bool := p.data.reverse.isPrefixOf s.data.reverse

/-- Python `s.lower()` (ASCII), character by character. -/
def pyLower (s : String) : String := ⟨s.data.map Char.toLower⟩

/-- Python `s.strip()`: drop leading and trailing whitespace. -/
def pyStrip (s : String) : String :=
  ⟨(s.data.dropWhile pyIsSpace).reverse.dropWhile pyIsSpace |>.reverse⟩

/-- Splitting worker: scan for the (non-empty) separator, cutting at each
occurrence; the fuel starts above the character count and each step consumes
at least one character. -/
def splitOnGo (sep : List Char) : Nat → List Char → List Char → List (List Char)
  | 0, cur, cs => [cur.reverse ++ cs]
  | fuel + 1, cur, cs =>
    if sep.isPrefixOf cs ∧ sep ≠ [] then
      cur.reverse :: splitOnGo sep fuel [] (cs.drop sep.length)
    else
      match cs with
      | [] => [cur.reverse]
      | c :: rest => splitOnGo sep fuel (c :: cur) rest

/-- Python `s.split(sep)` for a non-empty separator string: keeps empties. -/
def pySplitOn (s sep : String) : List String :=
  (splitOnGo sep.data (s.data.length + 1) [] s.data).map fun l => ⟨l⟩

/-- Whitespace tokenizer worker; the fuel starts above the character count. -/
def splitWsGo : Nat → List Char → List String
  | 0, _ => []
  | _ + 1, [] => []
  | fuel + 1, c :: rest =>
    if pyIsSpace c then splitWsGo fuel rest
    else
      (⟨c :: rest.takeWhile (fun d => ¬ pyIsSpace d)⟩ : String) ::
        splitWsGo fuel (rest.dropWhile (fun d => ¬ pyIsSpace d))

/-- Python `s.split()` with no argument: split on whitespace runs, no empties. -/
def pySplitWs (s : String) : List String :=
  splitWsGo (s.data.length + 1) s.data

/-- Python `sep.join(parts)`. -/
def pyJoin (sep : String) (parts : List String) : String :=
  ⟨List.intercalate sep.data (parts.map String.data)⟩

/-- Python `s.replace(old, new)` for a non-empty `old`: replace every
non-overlapping occurrence, scanning left to right. -/
def strReplace (s old new : String) : String :=
  pyJoin new (pySplitOn s old)

/-- Decimal digits of a natural number, least significant first; the fuel
starts above the number. -/
def natDigitsRev : Nat → Nat → List Char
  | 0, _ => []
  | fuel + 1, n =>
    if n < 10 then [Nat.digitChar n]
    else Nat.digitChar (n % 10) :: natDigitsRev fuel (n / 10)

/-- Decimal rendering of a natural number. -/
def natToStr (n : Nat) : String := ⟨(natDigitsRev (n + 1) n).reverse⟩

/-- Python `str(i)` for an integer. -/
def intToStr : Int → String
  | .ofNat n => natToStr n
  | .negSucc n => "-" ++ natToStr (n + 1)

/-- Truthiness of a Python `Optional[str]`: `None` and `""` are falsy. -/
def pyTruthyStr : Option String → Bool
  | none => false
  | some s => s ≠ ""

/-- Python `int(q)` on a float: truncation toward zero. -/
def pyTrunc (q : ℚ) : Int :=
  if 0 ≤ q then ⌊q⌋ else ⌈q⌉

/-- Value of the digit run `ds` read as a decimal natural number. -/
def digitsToNat (ds : List Char) : Nat :=
  ds.foldl (fun acc c => acc * 10 + c.toNat - '0'.toNat) 0

/-- Python `float(s)` restricted to the `[\d.]+` shapes produced by the
nearest-volcano regex group: at least one digit and at most one dot, e.g.
`"58.3"`, `"5."`, `".5"`; anything else (e.g. `"1.2.3"`) raises ValueError.
The value is built with `mkRat` to stay kernel-reducible. -/
def pyFloatDigitsDots (s : String) : Option ℚ :=
  let cs := s.data
  if cs.all (fun c => c.isDigit || c = '.') &&
     (cs.filter (fun c => c = '.')).length ≤ 1 &&
     (cs.any Char.isDigit) then
    let intPart := cs.takeWhile Char.isDigit
    let fracPart := (cs.dropWhile Char.isDigit).drop 1
    let den : Nat := Nat.pow 10 fracPart.length
    some (mkRat (digitsToNat intPart * den + digitsToNat fracPart) den)
  else
    none

/-- Python `int(s)` on a table cell: strip whitespace, optional sign, then a
non-empty digit run (numeric-literal underscores are not modelled; the ids in
scope are plain digit runs). -/
def pyIntParse (s : String) : Option Int :=
  let cs := (pyStrip s).data
  let core : List Char → Option Int := fun ds =>
    if ds ≠ [] && ds.all Char.isDigit then some (digitsToNat ds) else none
  match cs with
  | '+' :: rest => core rest
  | '-' :: rest => (core rest).map (fun n => -n)
  | _ => core cs

/-- Python `float(s)` on a table cell (coordinate components): strip, optional
sign, digits with at most one dot and at least one digit (exponents and
`inf`/`nan` spellings are not modelled; coordinates are plain decimals). -/
def pyFloatParse (s : String) : Option ℚ :=
  let t := pyStrip s
  match t.data with
  | '+' :: rest => pyFloatDigitsDots ⟨rest⟩
  | '-' :: rest => (pyFloatDigitsDots ⟨rest⟩).map Neg.neg
  | _ => pyFloatDigitsDots t

/-! ## JSON-like values (Python `Any` in dicts parsed from JSON) -/

/-- A parsed-JSON value, used for `special_cases` payloads (typed `Any` in the
dataclasses) and for schema documents handed to the loader. Objects are
association lists in insertion order. -/
inductive JVal where
  | jstr : String → JVal
  | jnum : ℚ → JVal
  | jbool : Bool → JVal
  | jnull : JVal
  | jarr : List JVal → JVal
  | jobj : List (String × JVal) → JVal

/-- Python dict lookup `d.get(k)` on an object's association list. JSON
duplicate keys resolve to the last occurrence, hence the reverse scan. -/
def jGet (kvs : List (String × JVal)) (k : String) : Option JVal :=
  (kvs.reverse.find? (fun kv => kv.1 = k)).map (·.2)

/-- Python truthiness of a JSON value (`if x:`). -/
def jTruthy : JVal → Bool
  | .jstr s => s ≠ ""
  | .jnum q => q ≠ 0
  | .jbool b => b
  | .jnull => false
  | .jarr xs => !xs.isEmpty
  | .jobj kvs => !kvs.isEmpty

/-- Python `isinstance(x, dict)` plus projection to the association list. -/
def jAsObj : JVal → Option (List (String × JVal))
  | .jobj kvs => some kvs
  | _ => none

/-- Python numeric view of a JSON value for `<` comparisons against a float:
numbers compare as themselves, booleans as 0/1, anything else raises
TypeError (`none`). -/
def jAsNum : JVal → Option ℚ
  | .jnum q => some q
  | .jbool b => some (if b then 1 else 0)
  | _ => none

/-- Python `str()` view of a JSON value as used by f-string interpolation of
`special_cases` entries; strings render as themselves (the only case the
pipeline's data exercises). -/
def jFmt : JVal → String
  | .jstr s => s
  | .jnum q => intToStr q.num ++ "/" ++ natToStr q.den
  | .jbool b => if b then "True" else "False"
  | .jnull => "None"
  | .jarr _ => "[...]"
  | .jobj _ => "{...}"

/-! ## Data model (src/src/models/assessment.py, har_output.py, schema.py) -/

/-- `AssessmentCategory` enum. -/
inductive AssessmentCategory where
  | earthquake
  | volcano
deriving DecidableEq

/-- `AssessmentCategory.value` strings. -/
def AssessmentCategory.value : AssessmentCategory → String
  | .earthquake => "Earthquake"
  | .volcano => "Volcano"

/-- `FeatureType` enum. -/
inductive FeatureType where
  | polygon
  | point
  | line
deriving DecidableEq

/-- `Coordinate` dataclass. -/
structure Coordinate where
  longitude : ℚ
  latitude : ℚ
deriving DecidableEq

/-- `Coordinate.from_string`: `lon, lat = map(float, coord_str.split(','))`;
a split that does not produce exactly two floats raises ValueError (`none`). -/
def coordinateFromString (s : String) : Option Coordinate :=
  match pySplitOn s "," with
  | [a, b] =>
    match pyFloatParse a, pyFloatParse b with
    | some lon, some lat => some ⟨lon, lat⟩
    | _, _ => none
  | _ => none

/-- `EarthquakeAssessment` dataclass: optional status text per hazard. -/
structure EarthquakeAssessment where
  active_fault : Option String := none
  liquefaction : Option String := none
  landslide : Option String := none
  tsunami : Option String := none
  fissure : Option String := none
deriving DecidableEq

/-- `is_assessed`: the field is present and not the `"--"` sentinel. -/
def isAssessedField : Option String → Bool
  | none => false
  | some v => v ≠ "--"

/-- `VolcanoAssessment` dataclass: optional status text per hazard. -/
structure VolcanoAssessment where
  nearest_active_volcano : Option String := none
  nearest_pav : Option String := none
  fissure : Option String := none
  lahar : Option String := none
  pyroclastic_flow : Option String := none
  base_surge : Option String := none
  lava_flow : Option String := none
  ballistic_projectile : Option String := none
  volcanic_tsunami : Option String := none
deriving DecidableEq

/-- `Assessment` dataclass. -/
structure Assessment where
  id : Int
  category : AssessmentCategory
  feature_type : FeatureType
  location : Coordinate
  earthquake : Option EarthquakeAssessment := none
  volcano : Option VolcanoAssessment := none
  vicinity_map_provided : Bool := false
deriving DecidableEq

/-- `ExplanationRecommendation`: a single combined text unit. -/
structure ExplanationRecommendation where
  text : String
deriving DecidableEq

/-- `ExplanationRecommendation.from_parts`: keep the truthy parts, join with a
space; raises ValueError when both parts are falsy. -/
def fromParts (explanation recommendation : Option String) :
    Except String ExplanationRecommendation :=
  let parts := [explanation, recommendation].filterMap fun p =>
    if pyTruthyStr p then p else none
  if parts = [] then
    .error "ValueError: Must provide at least explanation or recommendation"
  else
    .ok ⟨pyJoin " " parts⟩

/-- `HARSection` dataclass. -/
structure HARSection where
  heading : String
  assessment : String
  explanation_recommendation : ExplanationRecommendation
deriving DecidableEq

/-- `HAROutput` dataclass. -/
structure HAROutput where
  category : AssessmentCategory
  intro : String
  sections : List HARSection
  common_statements : List ExplanationRecommendation
  supersedes : String
  additional_recommendations : List String
deriving DecidableEq

/-! ## Schema model as the decision engine reads it (src/src/models/schema.py
dataclass field types; the engine dereferences these fields at the dataclass
annotations, with `special_cases` being raw parsed JSON). -/

/-- `HazardCondition` dataclass (typed view). -/
structure HazardCondition where
  template : String
  notes : Option String := none
  threshold_km : Option ℚ := none
  threshold_m : Option ℚ := none
  extras : List (String × JVal) := []

/-- `HazardRule` dataclass (typed view). There is no `development` field: the
decision engine's fissure step dereferences `rule.development`, which raises
AttributeError on this dataclass. -/
structure HazardRule where
  name : String
  explanation : Option String := none
  explanation_alt : Option String := none
  recommendation : Option String := none
  recommendation_alt : Option String := none
  conditions : List (String × HazardCondition) := []
  special_cases : Option (List (String × JVal)) := none
  applies_to : Option (List String) := none

/-- `HazardRulesSchema` dataclass (typed view); rule maps are association
lists in insertion order. -/
structure HazardRulesSchema where
  metadata : List (String × String) := []
  earthquake_rules : List (String × HazardRule) := []
  volcano_rules : List (String × HazardRule) := []

/-- Python `rules.get(key)` on a rule map (keys unique per schema). -/
def ruleGet (rules : List (String × HazardRule)) (k : String) :
    Option HazardRule :=
  (rules.find? (fun kv => kv.1 = k)).map (·.2)

/-! ## Status condition matcher (src/src/pipeline/condition_matcher.py) -/

/-- Regex `zone\s+([1-5])` searched case-insensitively: leftmost occurrence of
the literal `zone`, then at least one whitespace, then a digit 1–5; returns the
captured digit. (The pattern is deterministic: shrinking the greedy `\s+` run
leaves a whitespace character where `[1-5]` must match, so only the maximal
run can succeed.) -/
def zoneNumSearch (s : String) : Option Char :=
  let cs := (pyLower s).data
  let rec go : List Char → Option Char
    | [] => none
    | c :: rest =>
      let tryHere : Option Char :=
        if ['z', 'o', 'n', 'e'].isPrefixOf (c :: rest) then
          let afterLit := (c :: rest).drop 4
          let ws := afterLit.takeWhile pyIsSpace
          let afterWs := afterLit.dropWhile pyIsSpace
          if ws.length ≥ 1 then
            match afterWs with
            | d :: _ => if '1' ≤ d ∧ d ≤ '5' then some d else none
            | [] => none
          else none
        else none
      match tryHere with
      | some d => some d
      | none => go rest
  go cs

/-- `ConditionMatcher._fuzzy_match`: ordered keyword detection on the
lowercased status. The `conditions` argument is accepted but never read, as in
the source. -/
def fuzzyMatch (status : String)
    (_conditions : List (String × HazardCondition)) : Option String :=
  let statusLower := pyLower status
  if statusLower = "safe" then some "safe"
  else if strContains statusLower "high potential" then some "high_potential"
  else if strContains statusLower "moderate potential" then some "moderate_potential"
  else if strContains statusLower "low potential" then some "low_potential"
  else if strContains statusLower "highly susceptible" then some "highly_susceptible"
  else if strContains statusLower "moderately susceptible" then some "moderately_susceptible"
  else if strContains statusLower "least susceptible" then some "least_susceptible"
  else if strContains statusLower "highly prone" then some "highly_prone"
  else if strContains statusLower "moderately prone" then some "moderately_prone"
  else if strContains statusLower "least prone" then some "least_prone"
  else if strContains statusLower "prone" then some "prone"
  else if strContains statusLower "buffer" || strContains statusLower "zone of avoidance" then
    some "buffer_zone"
  else if strContains statusLower "transected" then some "transected"
  else if strContains statusLower "within pdz" || strContains statusLower "permanent danger zone" then
    some "within_pdz"
  else if strContains statusLower "zone" then
    match zoneNumSearch statusLower with
    | some d => some ("zone_" ++ String.singleton d)
    | none => none
  else none

/-- `ConditionMatcher.match_status`: falsy/sentinel guard, exact template
match in insertion order, then fuzzy matching. -/
def matchStatus (status : String)
    (conditions : List (String × HazardCondition)) : Option String :=
  if status = "" || status = "--" then none
  else
    match conditions.find? (fun kc => kc.2.template = status) with
    | some kc => some kc.1
    | none => fuzzyMatch status conditions

/-- `ConditionMatcher.match_liquefaction`. -/
def matchLiquefaction (status : String) : String :=
  let statusLower := pyLower status
  if strContains statusLower "high potential" then "high_potential"
  else if strContains statusLower "moderate potential" then "moderate_potential"
  else if strContains statusLower "low potential" then "low_potential"
  else if strContains statusLower "safe" then "safe"
  else "safe"

/-- `ConditionMatcher.match_landslide`. -/
def matchLandslide (status : String) : String :=
  let statusLower := pyLower status
  if strContains statusLower "highly susceptible" then "highly_susceptible"
  else if strContains statusLower "moderately susceptible" then "moderately_susceptible"
  else if strContains statusLower "least susceptible" then "least_susceptible"
  else if strContains statusLower "safe" then "safe"
  else if strContains statusLower "susceptible" then "moderately_susceptible"
  else "safe"

/-- `ConditionMatcher.match_tsunami`. -/
def matchTsunami (status : String) : String :=
  let statusLower := pyLower status
  if strContains statusLower "prone" then "prone"
  else if strContains statusLower "safe" then "safe"
  else "safe"

/-- `ConditionMatcher.match_lahar`: volcano-specific mapping (Pinatubo zones,
Mayon prone levels, generic prone/safe otherwise). -/
def matchLahar (status volcanoName : String) : String :=
  let statusLower := pyLower status
  let volcanoLower := pyLower volcanoName
  if strContains volcanoLower "pinatubo" then
    if strContains statusLower "zone" then
      match zoneNumSearch statusLower with
      | some d => "zone_" ++ String.singleton d
      | none => "safe"
    else "safe"
  else if strContains volcanoLower "mayon" then
    if strContains statusLower "highly prone" then "highly_prone"
    else if strContains statusLower "moderately prone" then "moderately_prone"
    else if strContains statusLower "least prone" then "least_prone"
    else if strContains statusLower "safe" then "safe"
    else if strContains statusLower "prone" then "moderately_prone"
    else "safe"
  else if strContains statusLower "prone" then "prone"
  else if strContains statusLower "safe" then "safe"
  else "safe"

/-! ## Nearest-volcano micro-grammar (DecisionEngine._parse_nearest_volcano):
regex `Approximately\s+([\d.]+)\s*(?:km|kilometers)\s+(\w+)\s+of\s+(.+?)\s+Volcano`
with re.IGNORECASE, applied by `re.search`. Each quantifier in the pattern is
deterministic (shrinking a greedy run always re-offers a character of the same
class where a disjoint class or literal must match next, and the two unit
alternatives differ at their second character), so the search is modelled as a
leftmost scan with a deterministic attempt at each start position; only the
lazy `(.+?)` group explores lengths, shortest first. -/

/-- Case-insensitive literal match (literal given in lowercase); returns the
remaining characters on success. -/
def ciPrefix : List Char → List Char → Option (List Char)
  | [], cs => some cs
  | _ :: _, [] => none
  | l :: ls, c :: cs => if c.toLower = l then ciPrefix ls cs else none

/-- The lazy `(.+?)\s+Volcano` tail: grow the captured group one non-newline
character at a time and stop at the first length where a non-empty whitespace
run followed by the (case-insensitive) literal `Volcano` follows. -/
def nvLazyName (accRev : List Char) : List Char → Option String
  | [] => none
  | c :: rest =>
    if c = '\n' then none
    else
      let accRev2 := c :: accRev
      let ws := rest.takeWhile pyIsSpace
      let afterWs := rest.dropWhile pyIsSpace
      if ws ≠ [] ∧ (ciPrefix "volcano".data afterWs).isSome then
        some ⟨accRev2.reverse⟩
      else
        nvLazyName accRev2 rest

/-- One attempt of the nearest-volcano pattern anchored at the current
position; returns (raw distance group, direction, volcano name). -/
def nvTryAt (cs : List Char) : Option (String × String × String) := do
  let r1 ← ciPrefix "approximately".data cs
  let ws1 := r1.takeWhile pyIsSpace
  if ws1 = [] then none else
  let r2 := r1.dropWhile pyIsSpace
  let g1 := r2.takeWhile (fun c => c.isDigit || c = '.')
  if g1 = [] then none else
  let r3 := r2.dropWhile (fun c => c.isDigit || c = '.')
  let r4 := r3.dropWhile pyIsSpace
  let r5 ← match ciPrefix "km".data r4 with
    | some r => some r
    | none => ciPrefix "kilometers".data r4
  let ws2 := r5.takeWhile pyIsSpace
  if ws2 = [] then none else
  let r6 := r5.dropWhile pyIsSpace
  let dir := r6.takeWhile pyIsWord
  if dir = [] then none else
  let r7 := r6.dropWhile pyIsWord
  let ws3 := r7.takeWhile pyIsSpace
  if ws3 = [] then none else
  let r8 := r7.dropWhile pyIsSpace
  let r9 ← ciPrefix "of".data r8
  let ws4 := r9.takeWhile pyIsSpace
  if ws4 = [] then none else
  let r10 := r9.dropWhile pyIsSpace
  let name ← nvLazyName [] r10
  some (⟨g1⟩, ⟨dir⟩, name)

/-- `re.search`: try the pattern at each start position, leftmost first. -/
def nvScan : List Char → Option (String × String × String)
  | [] => none
  | c :: rest =>
    match nvTryAt (c :: rest) with
    | some r => some r
    | none => nvScan rest

/-- Parsed nearest-volcano information. -/
structure VolcanoInfo where
  distance : ℚ
  direction : String
  name : String
deriving DecidableEq

/-- `DecisionEngine._parse_nearest_volcano`: regex search on the narrative;
on a match, `float(group 1)` (a ValueError propagates); otherwise the fallback
`{distance: 0.0, direction: 'unknown', name: 'Unknown Volcano'}`. A `None`
narrative raises TypeError inside `re.search`. -/
def parseNearestVolcano (text : Option String) : Except String VolcanoInfo :=
  match text with
  | none => .error "TypeError: expected string or bytes-like object"
  | some t =>
    match nvScan t.data with
    | some (g1, dir, name) =>
      match pyFloatDigitsDots g1 with
      | some q => .ok ⟨q, dir, name⟩
      | none => .error "ValueError: could not convert string to float"
    | none => .ok ⟨0, "unknown", "Unknown Volcano"⟩

/-! ## Decision engine (src/src/pipeline/decision_engine.py) -/

/-- `DecisionEngine._get_intro_statement`. -/
def getIntroStatement (a : Assessment) : String :=
  "All hazard assessments are based on the latest available hazard maps and on the location indicated "
  ++ (if a.vicinity_map_provided then "in the vicinity map provided."
      else "by the coordinates provided.")

/-- `DecisionEngine._get_supersedes_statement`. -/
def getSupersedesStatement (singleSite : Bool) : String :=
  if singleSite then
    "This assessment supersedes all previous reports issued for this site."
  else
    "This assessment supersedes all previous reports issued for these sites."

/-- `DecisionEngine._get_additional_recommendations`. -/
def additionalRecommendationsList : List String :=
  ["For more information on geohazards in the Philippines, please visit HazardHunterPH (https://hazardhunter.georisk.gov.ph/) and GeoAnalyticsPH (https://geoanalytics.georisk.gov.ph/)."]

/-- `DecisionEngine._check_distance_based_safety`: `distance_km > 50.0`,
nothing else (the `assessment` argument is accepted but unused, as in the
source). -/
def checkDistanceBasedSafety (_assessment : Assessment) (distanceKm : ℚ) : Bool :=
  if distanceKm > 50 then true else false

/-- The fixed proximity-safety common statement emitted on the distance-safe
branch of `process_volcano_assessment`. -/
def proximitySafetyStatement : ExplanationRecommendation :=
  ⟨"Considering the distance of the site from the volcano, the site is safe from volcanic hazards such as pyroclastic density currents, lava flows, and ballistic projectiles that may originate from the volcano."⟩

/-- The "nearest identified active volcano" common statement. -/
def nearestVolcanoStatement (volcanoName : String) : ExplanationRecommendation :=
  ⟨volcanoName ++ " Volcano is the nearest identified active volcano to the site."⟩

/-- Errors modelling the exception classes caught by the
`except (KeyError, AttributeError, TypeError)` handlers of the per-hazard
steps; ValueError is never in those tuples and propagates. -/
def isCaughtByHazardHandler (e : String) : Bool :=
  strStarts e "KeyError" || strStarts e "AttributeError" || strStarts e "TypeError"

/-- The special-case loop head of `_process_pdz`: the first key in
`rule.special_cases` with a case-insensitive substring match against the
volcano name in either direction. -/
def pdzMatchedConfig (rule : HazardRule) (volcanoName : String) :
    Option (String × JVal) :=
  (rule.special_cases.getD []).find? fun kv =>
    strContains (pyLower volcanoName) (pyLower kv.1) ||
    strContains (pyLower kv.1) (pyLower volcanoName)

/-- The `radius_km` value the `_process_pdz` loop resolves for a volcano
name, before any numeric check: none when the rule or a matching special-case
key is absent, when the matched key is `taal` (both taal paths yield None),
when the config is not a dict, or when it has no `radius_km` entry. -/
def pdzRadiusValue (schema : HazardRulesSchema) (volcanoName : String) :
    Option JVal :=
  match ruleGet schema.volcano_rules "pdz_danger_zone" with
  | none => none
  | some rule =>
    match pdzMatchedConfig rule volcanoName with
    | none => none
    | some (volcanoKey, volcanoConfig) =>
      if pyLower volcanoKey = "taal" then none
      else (jAsObj volcanoConfig).bind (fun o => jGet o "radius_km")

/-- The within-PDZ status f-string of `_process_pdz`. -/
def pdzWithinStatus (radiusStr : String) : String :=
  "Within PDZ; The site is within the " ++
    (radiusStr ++ "-kilometer radius Permanent Danger Zone")

/-- The outside-PDZ status f-string of `_process_pdz`. -/
def pdzOutsideStatus (radiusStr : String) : String :=
  "Outside PDZ; The site is outside the " ++
    (radiusStr ++ "-kilometer radius Permanent Danger Zone")

/-- `DecisionEngine._process_pdz`. The special-case loop takes the first key
with a case-insensitive substring match in either direction; a matched `taal`
key yields no section (both the explanation early-return and the
radius-less fall-through return None); otherwise `radius_km` is read from the
config when it is a dict. The narrative is re-parsed for the distance; a
KeyError/AttributeError/TypeError anywhere in the body degrades to None. -/
def processPdz (schema : HazardRulesSchema) (a : Assessment)
    (volcanoName : String) : Except String (Option HARSection) :=
  match ruleGet schema.volcano_rules "pdz_danger_zone" with
  | none => .ok none
  | some rule =>
    match pdzRadiusValue schema volcanoName with
    | none => .ok none
    | some radiusVal =>
      match a.volcano with
      | none => .ok none  -- attribute access on None: AttributeError, caught
      | some v =>
        match parseNearestVolcano v.nearest_active_volcano with
        | .error e => if isCaughtByHazardHandler e then .ok none else .error e
        | .ok info =>
          match jAsNum radiusVal with
          | none => .ok none  -- `<` against a non-number: TypeError, caught
          | some radiusKm =>
            let radiusStr := intToStr (pyTrunc radiusKm)
            if info.distance < radiusKm then
              let explanation :=
                strReplace (strReplace (rule.explanation.getD "")
                  "{volcano_name}" volcanoName) "{radius}" radiusStr
              match fromParts (some explanation) (some (rule.recommendation.getD "")) with
              | .error e => .error e  -- ValueError is not caught by the handler
              | .ok er =>
                .ok (some ⟨"PDZ (Permanent Danger Zone)",
                  pdzWithinStatus radiusStr, er⟩)
            else
              let explanation :=
                "The Permanent Danger Zone (PDZ) is a zone that can always be affected by small-scale eruptions of "
                ++ volcanoName ++ " Volcano. Human settlement is not recommended within the PDZ."
              let recommendation :=
                "The site is outside the " ++ radiusStr ++
                "-kilometer radius Permanent Danger Zone of the volcano."
              match fromParts (some (explanation ++ " " ++ recommendation)) none with
              | .error e => .error e
              | .ok er =>
                .ok (some ⟨"PDZ (Permanent Danger Zone)",
                  pdzOutsideStatus radiusStr, er⟩)

/-- `DecisionEngine._process_lahar`: skip on falsy/`"--"`/contains-`"Safe"`
status and on a missing rule; Pinatubo substitutes a zone-keyed explanation,
Mayon a prone-level explanation; a non-dict `zones` value raises
AttributeError, caught as a skip. The final section requires a truthy
explanation. -/
def processLahar (schema : HazardRulesSchema) (a : Assessment)
    (volcanoName : String) : Except String (Option HARSection) :=
  match a.volcano with
  | none => .ok none  -- attribute access on None: AttributeError, caught
  | some v =>
    match v.lahar with
    | none => .ok none
    | some status =>
      if status = "" || status = "--" then .ok none
      else if strContains status "Safe" then .ok none
      else
        match ruleGet schema.volcano_rules "lahar" with
        | none => .ok none
        | some rule =>
          let volcanoLower := pyLower volcanoName
          let specialCases := rule.special_cases.getD []
          -- explanation after the per-volcano substitution, or a modelled
          -- caught AttributeError (`none` means: whole step returns None)
          let substituted : Option (Option String) :=
            if strContains volcanoLower "pinatubo" then
              match jGet specialCases "pinatubo" with
              | some cfg =>
                if jTruthy cfg then
                  match jAsObj cfg with
                  | some o =>
                    let introV := jGet o "intro"
                    match zoneNumSearch status with
                    | some d =>
                      match jGet o "zones" with
                      | some zonesV =>
                        match jAsObj zonesV with
                        | some zo =>
                          match jGet zo ("zone_" ++ String.singleton d) with
                          | some zcfg =>
                            if jTruthy zcfg then
                              match jAsObj zcfg with
                              | some zco =>
                                let zexpV := jGet zco "explanation"
                                if introV.elim false jTruthy && zexpV.elim false jTruthy then
                                  some (some ((introV.elim "" jFmt) ++ " " ++ (zexpV.elim "" jFmt)))
                                else some rule.explanation
                              | none => some rule.explanation
                            else some rule.explanation
                          | none => some rule.explanation
                        | none => none  -- zones.get on a non-dict: AttributeError
                      | none => some rule.explanation  -- default {}: no zone config
                    | none => some rule.explanation
                  | none => some rule.explanation
                else some rule.explanation
              | none => some rule.explanation
            else if strContains volcanoLower "mayon" then
              match jGet specialCases "mayon" with
              | some cfg =>
                if jTruthy cfg then
                  match jAsObj cfg with
                  | some o =>
                    let introV := jGet o "intro"
                    let zonesV := jGet o "zones"
                    let pick : Option String :=  -- zones key chosen by the status text
                      if strContains status "Highly Prone" then some "highly_prone"
                      else if strContains status "Moderately Prone" then some "moderately_prone"
                      else if strContains status "Least Prone" then some "least_prone"
                      else none
                    match pick with
                    | none => some rule.explanation
                    | some zoneKey =>
                      match zonesV with
                      | none => some rule.explanation  -- default {}: lookup gives None
                      | some zv =>
                        match jAsObj zv with
                        | none => none  -- zones.get on a non-dict: AttributeError
                        | some zo =>
                          match jGet zo zoneKey with
                          | some zcfg =>
                            if jTruthy zcfg then
                              match jAsObj zcfg with
                              | some zco =>
                                let zexpV := jGet zco "explanation"
                                if introV.elim false jTruthy && zexpV.elim false jTruthy then
                                  some (some ((introV.elim "" jFmt) ++ " " ++ (zexpV.elim "" jFmt)))
                                else some rule.explanation
                              | none => some rule.explanation
                            else some rule.explanation
                          | none => some rule.explanation
                  | none => some rule.explanation
                else some rule.explanation
              | none => some rule.explanation
            else some rule.explanation
          match substituted with
          | none => .ok none  -- caught AttributeError
          | some explanation =>
            if ¬ pyTruthyStr explanation then .ok none
            else
              match fromParts explanation rule.recommendation with
              | .error e => .error e
              | .ok er => .ok (some ⟨"Lahar", status, er⟩)

/-- Shared shape of `_process_pyroclastic_flow` / `_process_lava_flow` /
`_process_ballistic_projectiles` / `_process_base_surge` /
`_process_volcanic_tsunami`: skip on falsy/`"--"` status, skip on a "Safe"
status, skip on a missing rule or falsy explanation, else one schema-rule
section. `safeCaseSensitive` selects between the PDC step's `"Safe" in
status` and the others' `"safe" in status.lower()`. -/
def processSimpleHazard (schema : HazardRulesSchema) (status? : Option String)
    (ruleKey heading : String) (safeCaseSensitive : Bool) :
    Except String (Option HARSection) :=
  match status? with
  | none => .ok none
  | some status =>
    if status = "" || status = "--" then .ok none
    else if (if safeCaseSensitive then strContains status "Safe"
             else strContains (pyLower status) "safe") then .ok none
    else
      match ruleGet schema.volcano_rules ruleKey with
      | none => .ok none
      | some rule =>
        if ¬ pyTruthyStr rule.explanation then .ok none
        else
          match fromParts rule.explanation rule.recommendation with
          | .error e => .error e
          | .ok er => .ok (some ⟨heading, status, er⟩)

/-- `DecisionEngine._process_pyroclastic_flow` (checks `"Safe" in status`,
case-sensitively). -/
def processPyroclasticFlow (schema : HazardRulesSchema) (a : Assessment) :
    Except String (Option HARSection) :=
  match a.volcano with
  | none => .ok none
  | some v => processSimpleHazard schema v.pyroclastic_flow
      "pyroclastic_density_current" "Pyroclastic Density Current" true

/-- `DecisionEngine._process_lava_flow` (checks `"safe" in status.lower()`). -/
def processLavaFlow (schema : HazardRulesSchema) (a : Assessment) :
    Except String (Option HARSection) :=
  match a.volcano with
  | none => .ok none
  | some v => processSimpleHazard schema v.lava_flow "lava_flow" "Lava Flow" false

/-- `DecisionEngine._process_ballistic_projectiles`. -/
def processBallisticProjectiles (schema : HazardRulesSchema) (a : Assessment) :
    Except String (Option HARSection) :=
  match a.volcano with
  | none => .ok none
  | some v => processSimpleHazard schema v.ballistic_projectile
      "ballistic_projectiles" "Ballistic Projectiles" false

/-- `DecisionEngine._process_base_surge` (Taal-only call site). -/
def processBaseSurge (schema : HazardRulesSchema) (a : Assessment) :
    Except String (Option HARSection) :=
  match a.volcano with
  | none => .ok none
  | some v => processSimpleHazard schema v.base_surge "base_surge" "Base Surge" false

/-- `DecisionEngine._process_volcanic_tsunami`. -/
def processVolcanicTsunami (schema : HazardRulesSchema) (a : Assessment) :
    Except String (Option HARSection) :=
  match a.volcano with
  | none => .ok none
  | some v => processSimpleHazard schema v.volcanic_tsunami
      "volcanic_tsunami" "Volcanic Tsunami" false

/-- `DecisionEngine._process_fissure`: skipped beyond 50 km and on a
falsy/`"--"` status or missing rule; past those guards the body dereferences
`rule.development`, a field `HazardRule` does not define, so AttributeError is
raised and caught and the step always degrades to None. -/
def processFissure (schema : HazardRulesSchema) (a : Assessment)
    (_volcanoName : String) (distanceKm : ℚ) : Except String (Option HARSection) :=
  if distanceKm > 50 then .ok none
  else
    match a.volcano with
    | none => .ok none
    | some v =>
      match v.fissure with
      | none => .ok none
      | some status =>
        if status = "" || status = "--" then .ok none
        else
          match ruleGet schema.volcano_rules "fissure" with
          | none => .ok none
          | some _rule => .ok none  -- rule.development: AttributeError, caught

/-- `DecisionEngine._check_needs_avoidance`: any proximity-hazard status with
a prone/susceptible/within keyword and no "safe" keyword. -/
def checkNeedsAvoidance (a : Assessment) : Bool :=
  match a.volcano with
  | none => false  -- attribute access on None: AttributeError, caught
  | some volcano =>
    let hit (status? : Option String) (keys : List String) : Bool :=
      match status? with
      | none => false
      | some s =>
        if s = "" then false
        else
          let statusLower := pyLower s
          (keys.any fun k => strContains statusLower k) &&
            ¬ strContains statusLower "safe"
    hit volcano.lahar ["prone", "susceptible"] ||
    hit volcano.pyroclastic_flow ["prone", "susceptible", "within"] ||
    hit volcano.lava_flow ["prone", "within"] ||
    hit volcano.ballistic_projectile ["prone", "within"]

/-- `DecisionEngine._get_avoidance_recommendation`: the PDC rule's
recommendation when present, else a fixed fallback. -/
def getAvoidanceRecommendation (schema : HazardRulesSchema) :
    ExplanationRecommendation :=
  let fallback : ExplanationRecommendation :=
    ⟨"Avoidance is recommended for site/sites that may potentially be affected by pyroclastic density currents (PDCs) and lava flows."⟩
  match ruleGet schema.volcano_rules "pyroclastic_density_current" with
  | some rule =>
    if pyTruthyStr rule.recommendation then ⟨rule.recommendation.getD ""⟩
    else fallback
  | none => fallback

/-- The hardcoded fallback ashfall template of
`DecisionEngine._get_ashfall_statement`. -/
def ashfallFallbackTemplate : String :=
  "In case of future eruptions of {volcano_name} Volcano and other nearby volcanoes, the site/s may be affected by tephra fall/ ashfall depending on the height of the eruption plume and prevailing wind direction at the time of eruption."

/-- `DecisionEngine._get_ashfall_statement`: template from the `common` rule's
`special_cases.ashfall.template` when available, else the hardcoded fallback;
`{volcano_name}` substituted. A non-dict `ashfall` value or non-string
template raises AttributeError (uncaught here), and an empty final text makes
`from_parts` raise ValueError. -/
def getAshfallStatement (schema : HazardRulesSchema) (volcanoName : String) :
    Except String ExplanationRecommendation :=
  let templateE : Except String String :=
    match ruleGet schema.volcano_rules "common" with
    | some commonRule =>
      match commonRule.special_cases with
      | some sc =>
        if sc.isEmpty then .ok ashfallFallbackTemplate  -- `{}` is falsy
        else
          match jGet sc "ashfall" with
          | none => .ok ""  -- default `{}`, then `.get('template','')`
          | some av =>
            match jAsObj av with
            | none => .error "AttributeError: object has no attribute get"
            | some ao =>
              match jGet ao "template" with
              | none => .ok ""
              | some (.jstr t) => .ok t
              | some _ => .error "AttributeError: object has no attribute replace"
      | none => .ok ashfallFallbackTemplate
    | none => .ok ashfallFallbackTemplate
  match templateE with
  | .error e => .error e
  | .ok template =>
    fromParts (some (strReplace template "{volcano_name}" volcanoName)) none

/-- `DecisionEngine._get_pav_statement`: extract the volcano name from the
narrative (`split("of ")[-1]`, then `split(" Volcano")[0].strip()`) and wrap
it in the fixed potentially-active-volcano wording. -/
def getPavStatement (pavText : String) : ExplanationRecommendation :=
  let volcanoName :=
    if strContains pavText "of " && strContains pavText "Volcano" then
      let afterOf := (pySplitOn pavText "of ").getLastD ""
      pyStrip ((pySplitOn afterOf " Volcano").headD "")
    else "Unknown"
  ⟨volcanoName ++ " Volcano is currently classified by DOST-PHIVOLCS as a potentially active volcano, which is morphologically young-looking but with no historical or analytical records of eruption, therefore, its eruptive and hazard potential is yet to be determined."⟩

/-- `DecisionEngine.process_volcano_assessment`: nearest-volcano statement
(guarded by `volcano_name != 'Unknown'`), distance-safety branch, per-hazard
sections only when not distance-safe, then PAV / ashfall / avoidance common
statements, supersedes and the fixed additional recommendations. -/
def processVolcanoAssessment (schema : HazardRulesSchema) (a : Assessment) :
    Except String HAROutput :=
  match a.volcano with
  | none => .error "Assessment missing volcano data"
  | some v => do
    let intro := getIntroStatement a
    let info ← parseNearestVolcano v.nearest_active_volcano
    let volcanoName := info.name
    let distanceKm := info.distance
    let mut common : List ExplanationRecommendation := []
    if volcanoName ≠ "Unknown" then
      common := common ++ [nearestVolcanoStatement volcanoName]
    let isDistanceSafe := checkDistanceBasedSafety a distanceKm
    if isDistanceSafe then
      common := common ++ [proximitySafetyStatement]
    let mut sections : List HARSection := []
    if ¬ isDistanceSafe then
      let pdzSection ← processPdz schema a volcanoName
      if let some sec := pdzSection then sections := sections ++ [sec]
      let laharSection ← processLahar schema a volcanoName
      if let some sec := laharSection then sections := sections ++ [sec]
      let pdcSection ← processPyroclasticFlow schema a
      if let some sec := pdcSection then sections := sections ++ [sec]
      let lavaSection ← processLavaFlow schema a
      if let some sec := lavaSection then sections := sections ++ [sec]
      let ballisticSection ← processBallisticProjectiles schema a
      if let some sec := ballisticSection then sections := sections ++ [sec]
      if strContains (pyLower volcanoName) "taal" then
        let baseSurgeSection ← processBaseSurge schema a
        if let some sec := baseSurgeSection then sections := sections ++ [sec]
      let tsunamiSection ← processVolcanicTsunami schema a
      if let some sec := tsunamiSection then sections := sections ++ [sec]
      let fissureSection ← processFissure schema a volcanoName distanceKm
      if let some sec := fissureSection then sections := sections ++ [sec]
    if pyTruthyStr v.nearest_pav ∧ v.nearest_pav ≠ some "--" then
      common := common ++ [getPavStatement (v.nearest_pav.getD "")]
    let ashfallStatement ← getAshfallStatement schema volcanoName
    common := common ++ [ashfallStatement]
    if ¬ isDistanceSafe ∧ checkNeedsAvoidance a then
      common := common ++ [getAvoidanceRecommendation schema]
    return ⟨.volcano, intro, sections, common,
      getSupersedesStatement true, additionalRecommendationsList⟩

/-- `DecisionEngine._process_active_fault` (call guarded by `is_assessed`). -/
def processActiveFault (schema : HazardRulesSchema) (status : String) :
    Except String HARSection :=
  match ruleGet schema.earthquake_rules "active_fault" with
  | none => .error "KeyError: active_fault"
  | some rule => do
    let er ← fromParts rule.explanation rule.recommendation
    return ⟨"Ground Rupture", status, er⟩

/-- `DecisionEngine._process_liquefaction`: recommendation only, joint
ground-shaking phrasing. -/
def processLiquefaction (schema : HazardRulesSchema) (status : String) :
    Except String HARSection :=
  match ruleGet schema.earthquake_rules "liquefaction" with
  | none => .error "KeyError: liquefaction"
  | some rule => do
    let er ← fromParts none rule.recommendation
    return ⟨"Ground Shaking and Liquefaction",
      "All sites may be affected by strong ground shaking. " ++ status, er⟩

/-- `DecisionEngine._process_eil` (the matcher result is computed and unused,
as in the source). -/
def processEil (schema : HazardRulesSchema) (status : String) :
    Except String HARSection :=
  match ruleGet schema.earthquake_rules "earthquake_induced_landslide" with
  | none => .error "KeyError: earthquake_induced_landslide"
  | some rule => do
    let _conditionKey := matchLandslide status
    let er ← fromParts rule.explanation rule.recommendation
    return ⟨"Earthquake-Induced Landslide", status, er⟩

/-- `DecisionEngine._process_tsunami`. -/
def processTsunamiSection (schema : HazardRulesSchema) (status : String) :
    Except String HARSection :=
  match ruleGet schema.earthquake_rules "tsunami" with
  | none => .error "KeyError: tsunami"
  | some rule => do
    let er ← fromParts rule.explanation rule.recommendation
    return ⟨"Tsunami", status, er⟩

/-- `DecisionEngine.process_earthquake_assessment`: fixed hazard order, each
step conditional on `is_assessed`; no common statements. -/
def processEarthquakeAssessment (schema : HazardRulesSchema) (a : Assessment) :
    Except String HAROutput :=
  match a.earthquake with
  | none => .error "Assessment missing earthquake data"
  | some eq => do
    let intro := getIntroStatement a
    let mut sections : List HARSection := []
    if isAssessedField eq.active_fault then
      let sec ← processActiveFault schema (eq.active_fault.getD "")
      sections := sections ++ [sec]
    if isAssessedField eq.liquefaction then
      let sec ← processLiquefaction schema (eq.liquefaction.getD "")
      sections := sections ++ [sec]
    if isAssessedField eq.landslide then
      let sec ← processEil schema (eq.landslide.getD "")
      sections := sections ++ [sec]
    if isAssessedField eq.tsunami then
      let sec ← processTsunamiSection schema (eq.tsunami.getD "")
      sections := sections ++ [sec]
    return ⟨.earthquake, intro, sections, [],
      getSupersedesStatement true, additionalRecommendationsList⟩

/-- `DecisionEngine.process_assessment`: category dispatch. -/
def processAssessment (schema : HazardRulesSchema) (a : Assessment) :
    Except String HAROutput :=
  match a.category with
  | .earthquake => processEarthquakeAssessment schema a
  | .volcano => processVolcanoAssessment schema a

/-! ## Text ingestion (src/src/parser/table_parser.py) -/

/-- `TableParser.FIELD_MAPPINGS`: canonical field name → accepted variants,
in source order. -/
def fieldMappings : List (String × List String) :=
  [("assessment", ["assessment", "assessment no", "id", "assessment_id"]),
   ("category", ["category"]),
   ("feature_type", ["feature type", "feature_type", "type"]),
   ("location", ["location", "coordinates", "coordinate"]),
   ("active_fault", ["active fault", "active_fault", "ground rupture"]),
   ("liquefaction", ["liquefaction", "liq"]),
   ("landslide", ["landslide", "earthquake-induced landslide", "eil"]),
   ("tsunami", ["tsunami", "tsu"]),
   ("fissure", ["fissure"]),
   ("nearest_active_volcano",
    ["nearest active volcano", "nearest_active_volcano", "nearest volcano",
     "active volcano"]),
   ("nearest_pav",
    ["nearest potentially active volcano", "nearest_potentially_active_volcano",
     "nearest pav", "pav"]),
   ("lahar", ["lahar"]),
   ("pyroclastic_flow",
    ["pyroclastic flow", "pyroclastic_flow", "pdc", "pyroclastic density current"]),
   ("base_surge", ["base surge", "base_surge"]),
   ("lava_flow", ["lava flow", "lava_flow"]),
   ("ballistic_projectile",
    ["ballistic projectile", "ballistic_projectile", "ballistic projectiles"]),
   ("volcanic_tsunami", ["volcanic tsunami", "volcanic_tsunami"])]

/-- `TableParser._normalize_field_name`: lowercase+strip, then the first
canonical name whose variant list contains it (or equals it). -/
def normalizeFieldName (field : String) : Option String :=
  let fieldLower := pyStrip (pyLower field)
  fieldMappings.findSome? fun cv =>
    if cv.2.contains fieldLower || fieldLower = cv.1 then some cv.1 else none

/-- Python dict insert/update: replace the value in place when the key exists
(keys stay unique and keep first-insertion order), else append. -/
def pyDictSet (d : List (String × String)) (k v : String) :
    List (String × String) :=
  if d.any (fun p => p.1 = k) then
    d.map (fun p => if p.1 = k then (p.1, v) else p)
  else d ++ [(k, v)]

/-- Python dict lookup on a `pyDictSet`-built association list. -/
def pyDictGet (d : List (String × String)) (k : String) : Option String :=
  (d.find? (fun p => p.1 = k)).map (·.2)

/-- `dict(zip(headers, values))`: zip truncates to the shorter list; duplicate
headers keep the last value. -/
def zipDict (headers values : List String) : List (String × String) :=
  (headers.zip values).foldl (fun acc kv => pyDictSet acc kv.1 kv.2) []

/-- `TableParser._parse_row_data`: normalize raw keys through the synonym
table (last write wins per canonical key), then require a truthy integer id,
a recognized category token and a parseable non-sentinel location; the
category picks which payload is populated. Every success carries
`vicinity_map_provided=True`. -/
def parseRowData (rowData : List (String × String)) : Option Assessment :=
  let normalized := rowData.foldl (fun acc fv =>
    match normalizeFieldName fv.1 with
    | some canonical => pyDictSet acc canonical fv.2
    | none => acc) []
  let get := fun k => pyDictGet normalized k
  match get "assessment" with
  | none => none
  | some idStr =>
    if idStr = "" then none
    else
      match pyIntParse idStr with
      | none => none
      | some assessmentId =>
        let categoryStr := (get "category").getD ""
        if categoryStr = "" then none
        else
          let categoryLower := pyLower categoryStr
          let category? : Option AssessmentCategory :=
            if strContains categoryLower "earthquake" then some .earthquake
            else if strContains categoryLower "volcano" then some .volcano
            else none
          match category? with
          | none => none
          | some category =>
            let featureStr := (get "feature_type").getD "Polygon"
            let featureLower := pyLower featureStr
            let featureType :=
              if strContains featureLower "polygon" then FeatureType.polygon
              else if strContains featureLower "point" then FeatureType.point
              else if strContains featureLower "line" then FeatureType.line
              else FeatureType.polygon
            let locationStr := (get "location").getD ""
            if locationStr = "" || locationStr = "--" then none
            else
              match coordinateFromString locationStr with
              | none => none
              | some location =>
                let earthquake : Option EarthquakeAssessment :=
                  if category = .earthquake then
                    some ⟨get "active_fault", get "liquefaction",
                      get "landslide", get "tsunami", get "fissure"⟩
                  else none
                let volcano : Option VolcanoAssessment :=
                  if category = .volcano then
                    some ⟨get "nearest_active_volcano", get "nearest_pav",
                      get "fissure", get "lahar", get "pyroclastic_flow",
                      get "base_surge", get "lava_flow",
                      get "ballistic_projectile", get "volcanic_tsunami"⟩
                  else none
                some ⟨assessmentId, category, featureType, location,
                  earthquake, volcano, true⟩

/-- `re.sub(r'\[([^\]]+)\]\([^\)]+\)', r'\1', ...)`: unwrap every markdown
link, leftmost first; a `[` that does not open a full link stays literal. The
fuel starts at the character count and each step consumes at least one
character. -/
def linkUnwrapGo : Nat → List Char → List Char
  | 0, cs => cs
  | _ + 1, [] => []
  | fuel + 1, c :: rest =>
    if c = '[' then
      let inner := rest.takeWhile (fun d => d ≠ ']')
      let after := rest.dropWhile (fun d => d ≠ ']')
      match after with
      | ']' :: '(' :: rest2 =>
        let link := rest2.takeWhile (fun d => d ≠ ')')
        let after2 := rest2.dropWhile (fun d => d ≠ ')')
        match after2 with
        | ')' :: rest3 =>
          if inner ≠ [] ∧ link ≠ [] then inner ++ linkUnwrapGo fuel rest3
          else c :: linkUnwrapGo fuel rest
        | _ => c :: linkUnwrapGo fuel rest
      | _ => c :: linkUnwrapGo fuel rest
    else c :: linkUnwrapGo fuel rest

/-- `TableParser._clean_headers` on one header: unwrap markdown links,
collapse whitespace (`' '.join(header.split())`), lowercase, strip. -/
def cleanHeader (h : String) : String :=
  let unwrapped : String := ⟨linkUnwrapGo h.data.length h.data⟩
  pyStrip (pyLower (pyJoin " " (pySplitWs unwrapped)))

/-- `re.split(r'\s{2,}|\t', line)`: a delimiter is a maximal whitespace run of
length at least two (the greedy `\s{2,}` consumes the whole run) or a single
tab; a lone non-tab whitespace character is literal. The fuel starts at the
character count. -/
def pySplitColsGo : Nat → List Char → List Char → List String
  | 0, cur, cs => [⟨cur.reverse ++ cs⟩]
  | _ + 1, cur, [] => [⟨cur.reverse⟩]
  | fuel + 1, cur, c :: rest =>
    if pyIsSpace c && (match rest with | d :: _ => pyIsSpace d | [] => false) then
      (⟨cur.reverse⟩ : String) :: pySplitColsGo fuel [] (rest.dropWhile pyIsSpace)
    else if c = '\t' then
      (⟨cur.reverse⟩ : String) :: pySplitColsGo fuel [] rest
    else
      pySplitColsGo fuel (c :: cur) rest

/-- Column split of an OHAS native data row. -/
def pySplitCols (s : String) : List String :=
  pySplitColsGo s.data.length [] s.data

/-- The regex tail `\s*:?\s*(.+)` of `extract_field`, with the engine's
backtracking order: greedy first whitespace run (longest first), the optional
colon (consumed first), greedy second whitespace run, then `(.+)` needing at
least one non-newline character. -/
def extractTail (cs : List Char) : Option String :=
  let tryRest : List Char → Option String := fun r2 =>
    let m2 := (r2.takeWhile pyIsSpace).length
    ((List.range (m2 + 1)).reverse).findSome? fun k2 =>
      let r3 := r2.drop k2
      let grab := r3.takeWhile (fun c => c ≠ '\n')
      if grab ≠ [] then some (⟨grab⟩ : String) else none
  let m1 := (cs.takeWhile pyIsSpace).length
  ((List.range (m1 + 1)).reverse).findSome? fun k1 =>
    let r1 := cs.drop k1
    match r1 with
    | ':' :: r2 =>
      match tryRest r2 with
      | some g => some g
      | none => tryRest r1
    | _ => tryRest r1

/-- `extract_field(label, text)`: case-insensitive `re.search` of the escaped
label followed by `\s*:?\s*(.+)`; the matched group is stripped, a failed
search yields `""`. -/
def extractField (label text : String) : String :=
  let lab := (pyLower label).data
  let rec go : List Char → Option String
    | [] => none
    | c :: rest =>
      match ciPrefix lab (c :: rest) with
      | some after =>
        match extractTail after with
        | some g => some g
        | none => go rest
      | none => go rest
  match go text.data with
  | some g => pyStrip g
  | none => ""

/-- `TableParser._parse_field_based`: first truthy variant match per
canonical field, then row resolution. -/
def parseFieldBased (text : String) : Option Assessment :=
  let rowData := fieldMappings.foldl (fun acc cv =>
    match cv.2.findSome? (fun variant =>
        let value := extractField variant text
        if value ≠ "" then some value else none) with
    | some value => pyDictSet acc cv.1 value
    | none => acc) []
  parseRowData rowData

/-- Stripped, non-empty lines of the input. -/
def nonEmptyLines (text : String) : List String :=
  ((pySplitOn text "\n").map pyStrip).filter (fun l => l ≠ "")

/-- `TableParser._parse_tsv`: first line gives the cleaned headers, every
further line is one record; rows that fail resolution are dropped silently
and an empty result is returned as-is (no error). -/
def parseTsv (text : String) : List Assessment :=
  match nonEmptyLines text with
  | [] => []  -- unreachable from parse_from_text: a stripped text with a tab is non-empty
  | headerLine :: rest =>
    let headers := (pySplitOn headerLine "\t").map cleanHeader
    rest.filterMap fun line =>
      parseRowData (zipDict headers (pySplitOn line "\t"))

/-- Separator-row test `^\|\s*[-:]+\s*(\|\s*[-:]+\s*)*\|$`: splitting on `|`
must give an empty first and last part and at least one middle part, each
middle part being optional whitespace around a non-empty run of `-`/`:`. -/
def isSeparatorRow (line : String) : Bool :=
  let parts := pySplitOn line "|"
  let segOk : String → Bool := fun s =>
    let u := s.data.dropWhile pyIsSpace
    let r := u.takeWhile (fun c => c = '-' || c = ':')
    r ≠ [] && (u.drop r.length).all pyIsSpace
  match parts with
  | [] => false
  | first :: rest =>
    first = "" && rest ≠ [] &&
    (match rest.getLast? with | some last => last = "" | none => false) &&
    (rest.dropLast.length ≥ 1) && rest.dropLast.all segOk

/-- Python slice `[1:-1]`. -/
def slice1m1 (l : List String) : List String := (l.drop 1).dropLast

/-- `TableParser._parse_markdown_table`: the first pipe-bounded non-separator
line is the header; later lines that start with a pipe and are not separator
rows become records; zero valid records raise. -/
def parseMarkdownTable (text : String) : Except String (List Assessment) :=
  let lines := nonEmptyLines text
  let isHeaderLine : String → Bool := fun l =>
    strStarts l "|" && strEnds l "|" && ¬ isSeparatorRow l
  match lines.findIdx? isHeaderLine with
  | none => .error "Could not find table header row"
  | some i =>
    let headerLine := (lines.drop i).headD ""
    let headers := ((slice1m1 (pySplitOn headerLine "|")).map pyStrip).map cleanHeader
    let rows := (lines.drop (i + 1)).filter
      (fun l => strStarts l "|" && ¬ isSeparatorRow l)
    let assessments := rows.filterMap fun line =>
      parseRowData (zipDict headers ((slice1m1 (pySplitOn line "|")).map pyStrip))
    if assessments.isEmpty then
      .error "No valid assessment data found in table"
    else .ok assessments

/-- Line begins a data row for the OHAS native layout: regex `^\d+\s+`. -/
def startsDataRow (l : String) : Bool :=
  let ds := l.data.takeWhile Char.isDigit
  ds ≠ [] && (match l.data.dropWhile Char.isDigit with
    | c :: _ => pyIsSpace c
    | [] => false)

/-- Line begins with a digit: regex `^\d+`. -/
def startsDigit (l : String) : Bool :=
  match l.data with
  | c :: _ => c.isDigit
  | [] => false

/-- Footer test of the OHAS native row loop. -/
def isFooterLine (l : String) : Bool :=
  strContains (pyLower l) "no files" || strContains (pyLower l) "attached"

/-- `TableParser._parse_ohas_native`: locate the first header keyword line,
collect one-per-line headers until the first `^\d+\s+` data row, then resolve
each `^\d+` row (split on two-or-more spaces or tabs, short rows padded with
`"--"`) until a footer line; zero valid records raise. -/
def parseOhasNative (text : String) : Except String (List Assessment) :=
  let lines := nonEmptyLines text
  let headerKeywords := ["assessment", "category", "feature type", "location"]
  match lines.findIdx? (fun l => headerKeywords.contains (pyLower l)) with
  | none => .error "Could not find column headers in OHAS format"
  | some headerStart =>
    match (lines.drop headerStart).findIdx? startsDataRow with
    | none => .error "Could not find data rows in OHAS format"
    | some dataRel =>
      let headers := ((lines.drop headerStart).take dataRel).map
        (fun l => pyStrip (pyLower l))
      let dataLines := lines.drop (headerStart + dataRel)
      let rows := (dataLines.takeWhile (fun l => ¬ isFooterLine l)).filter startsDigit
      let assessments := rows.filterMap fun line =>
        let values := pySplitCols line
        let padded :=
          if values.length ≥ headers.length then values
          else values ++ List.replicate (headers.length - values.length) "--"
        parseRowData (zipDict headers padded)
      if assessments.isEmpty then
        .error "No valid assessment data found in OHAS format"
      else .ok assessments

/-- `TableParser.parse_from_text`: strip, then format detection in priority
order (native banner phrases, pipe table, tabs, field-based). The first three
branches return lists of valid assessments only; the field-based branch
returns a one-element list that holds `None` when row resolution failed. -/
def parseFromText (text : String) : Except String (List (Option Assessment)) :=
  let t := pyStrip text
  if strContains t "Hazard Assessment" || strContains t "Displaying" then
    (parseOhasNative t).map (List.map some)
  else if strContains t "|" && strContains t "\n" then
    (parseMarkdownTable t).map (List.map some)
  else if strContains t "\t" then
    .ok ((parseTsv t).map some)
  else
    .ok [parseFieldBased t]

/-! ## Schema loader (src/src/parser/schema_loader.py and
HazardRulesSchema.from_dict in src/src/models/schema.py). The file read and
JSON decode are outside the embedding: `loadSchema` starts from the parsed
top-level JSON object. -/

/-- Python `key in container`: key membership for dicts, element equality for
lists, substring for strings, TypeError otherwise. -/
def pyIn (container : JVal) (key : String) : Except String Bool :=
  match container with
  | .jobj kvs => .ok (kvs.any (fun kv => kv.1 = key))
  | .jarr xs => .ok (xs.any (fun x => match x with | .jstr s => s = key | _ => false))
  | .jstr s => .ok (strContains s key)
  | _ => .error "TypeError: argument is not iterable"

/-- The required top-level keys of `_validate_structure`. -/
def requiredTopKeys : List String :=
  ["metadata", "earthquake_rules", "volcano_rules", "decision_logic",
   "fuzzy_logic_parameters"]

/-- The required earthquake hazard keys of `_validate_structure`. -/
def earthquakeHazardKeys : List String :=
  ["active_fault", "liquefaction", "tsunami", "earthquake_induced_landslide",
   "fissure"]

/-- The required volcano hazard keys of `_validate_structure`. -/
def volcanoHazardKeys : List String :=
  ["pdz_danger_zone", "lava_flow", "pyroclastic_density_current", "base_surge",
   "ballistic_projectiles", "lahar", "volcanic_tsunami", "fissure",
   "potentially_active_volcano"]

/-- `key not in data` loop over a hazard-key list: raise on the first key not
`in` the rule-map value (a `pyIn` TypeError also propagates). -/
def checkHazardKeys (container : JVal) (msg : String) :
    List String → Except String Unit
  | [] => .ok ()
  | k :: ks => do
    let b ← pyIn container k
    if b then checkHazardKeys container msg ks else .error (msg ++ k)

/-- `SchemaLoader._validate_structure`: raise on the first missing top-level
key, then on the first missing hazard key of either category. -/
def validateStructure (data : List (String × JVal)) : Except String Unit := do
  match requiredTopKeys.find? (fun k => (jGet data k).isNone) with
  | some k => .error ("Missing required top-level key: " ++ k)
  | none =>
    checkHazardKeys ((jGet data "earthquake_rules").getD .jnull)
      "Missing earthquake hazard rule: " earthquakeHazardKeys
    checkHazardKeys ((jGet data "volcano_rules").getD .jnull)
      "Missing volcano hazard rule: " volcanoHazardKeys

/-- Python `str.title()` (ASCII): uppercase a letter that follows a
non-letter, lowercase the other letters. -/
def pyTitle (s : String) : String :=
  ⟨(s.data.foldl (fun st c =>
      if c.isAlpha then (st.1 ++ [if st.2 then c.toLower else c.toUpper], true)
      else (st.1 ++ [c], false)) (([] : List Char), false)).1⟩

/-- `HazardCondition` as `from_dict` actually builds it (no runtime type
checks on the JSON values). -/
structure RawCondition where
  template : JVal
  notes : Option JVal := none
  threshold_km : Option JVal := none
  threshold_m : Option JVal := none
  extras : List (String × JVal) := []

/-- `HazardRule` as `from_dict` actually builds it. -/
structure RawRule where
  name : JVal
  explanation : Option JVal := none
  explanation_alt : Option JVal := none
  recommendation : Option JVal := none
  recommendation_alt : Option JVal := none
  conditions : List (String × RawCondition) := []
  special_cases : Option JVal := none
  applies_to : Option JVal := none

/-- `HazardRulesSchema` as `from_dict` actually builds it. -/
structure RawSchema where
  metadata : JVal
  earthquake_rules : List (String × RawRule)
  volcano_rules : List (String × RawRule)
  decision_logic : JVal
  fuzzy_logic_parameters : JVal

/-- The conditions loop of `from_dict`: `rule_data.get('conditions', {})` must
support `.items()` (AttributeError otherwise); non-dict condition values are
skipped; known fields are split from extras. -/
def buildConditions (ruleData : List (String × JVal)) :
    Except String (List (String × RawCondition)) :=
  match jGet ruleData "conditions" with
  | none => .ok []
  | some cv =>
    match jAsObj cv with
    | none => .error "AttributeError: object has no attribute items"
    | some conds =>
      .ok (conds.filterMap fun kc =>
        match jAsObj kc.2 with
        | none => none
        | some co =>
          some (kc.1,
            { template := (jGet co "template").getD (.jstr "")
              notes := jGet co "notes"
              threshold_km := jGet co "threshold_km"
              threshold_m := jGet co "threshold_m"
              extras := co.filter fun p =>
                ¬ (["template", "notes", "threshold_km", "threshold_m"].contains p.1) }))

/-- One rule of the `from_dict` loops. On the volcano side a rule with falsy
explanation, recommendation and special_cases stores the whole rule dict as
its special structure. -/
def buildRawRule (isVolcanoSide : Bool) (hazardKey : String)
    (ruleData : List (String × JVal)) : Except String RawRule := do
  let conditions ← buildConditions ruleData
  let explanation := jGet ruleData "explanation"
  let recommendation := jGet ruleData "recommendation"
  let specialCases0 := jGet ruleData "special_cases"
  let falsy : Option JVal → Bool := fun v => v.elim true (fun x => ¬ jTruthy x)
  let specialCases :=
    if isVolcanoSide && falsy explanation && falsy recommendation &&
        falsy specialCases0 then
      some (.jobj ruleData)
    else specialCases0
  return { name := (jGet ruleData "name").getD
             (.jstr (pyTitle (strReplace hazardKey "_" " ")))
           explanation := explanation
           explanation_alt := jGet ruleData "explanation_alt"
           recommendation := recommendation
           recommendation_alt := jGet ruleData "recommendation_alt"
           conditions := conditions
           special_cases := specialCases
           applies_to := jGet ruleData "applies_to" }

/-- The per-entry loop of a `from_dict` rule side, in iteration order. -/
def buildRuleList (isVolcanoSide : Bool) :
    List (String × List (String × JVal)) →
    Except String (List (String × RawRule))
  | [] => .ok []
  | kr :: rest => do
    let r ← buildRawRule isVolcanoSide kr.1 kr.2
    let rs ← buildRuleList isVolcanoSide rest
    .ok ((kr.1, r) :: rs)

/-- One side of `from_dict`: `.items()` on the rule-map value (AttributeError
when it is not a dict), non-dict rule values skipped. -/
def buildRuleSide (isVolcanoSide : Bool) (rulesVal : JVal) :
    Except String (List (String × RawRule)) := do
  let obj ← match jAsObj rulesVal with
    | some o => .ok o
    | none => .error "AttributeError: object has no attribute items"
  let entries := obj.filterMap fun kv => (jAsObj kv.2).map (fun rd => (kv.1, rd))
  buildRuleList isVolcanoSide entries

/-- `HazardRulesSchema.from_dict`. -/
def fromDict (data : List (String × JVal)) : Except String RawSchema := do
  let earthquakeRules ← buildRuleSide false ((jGet data "earthquake_rules").getD (.jobj []))
  let volcanoRules ← buildRuleSide true ((jGet data "volcano_rules").getD (.jobj []))
  return { metadata := (jGet data "metadata").getD (.jobj [])
           earthquake_rules := earthquakeRules
           volcano_rules := volcanoRules
           decision_logic := (jGet data "decision_logic").getD (.jobj [])
           fuzzy_logic_parameters := (jGet data "fuzzy_logic_parameters").getD (.jobj []) }

/-- `SchemaLoader.load` past the file read and JSON decode: validate, then
convert; every raised exception (including the SchemaValidationError from
validation itself) is re-raised by the `except Exception` clause as
SchemaValidationError. -/
def loadSchema (data : List (String × JVal)) : Except String RawSchema :=
  match validateStructure data with
  | .error e => .error ("SchemaValidationError: Error loading schema: " ++ e)
  | .ok _ =>
    match fromDict data with
    | .error e => .error ("SchemaValidationError: Error loading schema: " ++ e)
    | .ok s => .ok s

/-! ## Helper lemmas on the Python string primitives -/

/-- `strContains` agrees with list-infix containment. -/
theorem strContains_char_infix_iff (hay needle : String) :
    strContains hay needle = true ↔ needle.data <:+: hay.data := by
  unfold strContains
  rw [List.any_eq_true]
  constructor
  · rintro ⟨i, -, hpre⟩
    rw [List.isPrefixOf_iff_prefix] at hpre
    exact hpre.isInfix.trans (List.drop_suffix i hay.data).isInfix
  · rintro hinf
    rcases List.infix_iff_prefix_suffix.mp hinf with ⟨t, hpre, hsuf⟩
    rcases hsuf with ⟨s, hs⟩
    refine ⟨s.length, ?_, ?_⟩
    · rw [List.mem_range]
      have : s.length ≤ hay.data.length := by
        rw [← hs]; simp
      omega
    · rw [List.isPrefixOf_iff_prefix, ← hs, List.drop_left]
      exact hpre

/-- Substring containment is transitive through an intermediate string. -/
theorem strContains_trans {t b n : String} (hb : strContains t b = true)
    (hn : strContains b n = true) : strContains t n = true := by
  rw [strContains_char_infix_iff] at *
  exact hn.trans hb

/-- If `t` lacks `n` and `b` contains `n`, then `t` lacks `b`. -/
theorem not_strContains_of {t b n : String} (hn : strContains b n = true)
    (h : strContains t n = false) : strContains t b = false := by
  cases hb : strContains t b with
  | false => rfl
  | true => rw [strContains_trans hb hn] at h; cases h

/-- Whether an appended string starts with `p` only depends on its first part
once that part is at least as long as `p`. -/
theorem strStarts_append (p a b : String)
    (h : p.data.length ≤ a.data.length) :
    strStarts (a ++ b) p = strStarts a p := by
  rw [Bool.eq_iff_iff]
  unfold strStarts
  rw [List.isPrefixOf_iff_prefix, List.isPrefixOf_iff_prefix,
    String.data_append, List.prefix_iff_eq_take, List.prefix_iff_eq_take,
    List.take_append_eq_append_take, Nat.sub_eq_zero_of_le h, List.take_zero,
    List.append_nil]

/-- `from_parts` succeeds whenever the recommendation argument is a non-empty
string. -/
theorem fromParts_ok_of_right (e : Option String) (r : String) (hr : r ≠ "") :
    ∃ er, fromParts e (some r) = .ok er := by
  unfold fromParts
  by_cases he : pyTruthyStr e = true <;> simp [pyTruthyStr, he, hr]

/-- `from_parts` succeeds whenever the explanation argument is a non-empty
string. -/
theorem fromParts_ok_of_left (e : String) (r : Option String) (he : e ≠ "") :
    ∃ er, fromParts (some e) r = .ok er := by
  unfold fromParts
  by_cases hr : pyTruthyStr r = true <;> simp [pyTruthyStr, he, hr]


/-- Every assessment that `_parse_row_data` resolves carries
`vicinity_map_provided = True`. -/
theorem parseRowData_vicinity (rd : List (String × String)) (a : Assessment)
    (h : parseRowData rd = some a) : a.vicinity_map_provided = true := by
  simp only [parseRowData] at h
  repeat' split at h
  all_goals first
    | exact Option.noConfusion h
    | (injection h with h2; exact h2 ▸ rfl)

/-! ## Claim theorems -/

set_option maxRecDepth 1000000

/-- A schema with no rules: every rule lookup misses, so the volcano workflow
uses only its hardcoded fallbacks. -/
def emptySchema : HazardRulesSchema := ⟨[], [], []⟩

/-- Volcanic assessment 24 km from Bulusan with all three proximity-hazard
statuses "Safe" (the shape of repository test case HAS-17810, with the
ballistic status made explicit). -/
def bulusanSafeAssessment : Assessment :=
  { id := 17810, category := .volcano, feature_type := .polygon
    location := ⟨123.8545, 12.7512⟩
    volcano := some
      { nearest_active_volcano :=
          some "Approximately 24 kilometers north of Bulusan Volcano"
        lahar := some "Safe", pyroclastic_flow := some "Safe"
        lava_flow := some "Safe", ballistic_projectile := some "Safe" }
    vicinity_map_provided := true }

/-- C1: the spec says the distance-safety branch is taken iff distance > 50 km
OR all of the pyroclastic-flow, lava-flow and ballistic-projectile statuses
contain "Safe". The code's `_check_distance_based_safety` tests only the
distance, so at 24 km with all three statuses "Safe" the proximity-safety
statement is not emitted (the workflow's own step-3 docstring and the
repository's validation case HAS-17810 expect it): the all-Safe disjunct is
missing from the implementation. -/
theorem distanceSafety_allSafe_disjunct_missing :
    (bulusanSafeAssessment.volcano.bind (fun v => v.pyroclastic_flow) = some "Safe" ∧
     bulusanSafeAssessment.volcano.bind (fun v => v.lava_flow) = some "Safe" ∧
     bulusanSafeAssessment.volcano.bind (fun v => v.ballistic_projectile) = some "Safe") ∧
    (parseNearestVolcano
        (bulusanSafeAssessment.volcano.bind (fun v => v.nearest_active_volcano))).toOption =
      some ⟨24, "north", "Bulusan"⟩ ∧
    checkDistanceBasedSafety bulusanSafeAssessment 24 = false ∧
    ((processVolcanoAssessment emptySchema bulusanSafeAssessment).map
        (fun o => (decide (proximitySafetyStatement ∈ o.common_statements),
          o.sections.length))).toOption = some (false, 0) := by
  decide

/-- C2: text recognized by none of the four formats reaches the field-based
branch, which returns `[None]` instead of raising ParseError: the result is a
one-element list whose element is not an Assessment. -/
theorem unrecognized_input_yields_none_element :
    strContains "hello world" "Hazard Assessment" = false ∧
    strContains "hello world" "Displaying" = false ∧
    strContains "hello world" "|" = false ∧
    strContains "hello world" "\t" = false ∧
    (parseFromText "hello world").toOption = some [none] := by
  decide

/-- Volcanic assessment whose nearest-volcano narrative does not match the
micro-grammar. -/
def unparsedNarrativeAssessment : Assessment :=
  { id := 9001, category := .volcano, feature_type := .polygon
    location := ⟨0, 0⟩
    volcano := some
      { nearest_active_volcano := some "No volcano information available" }
    vicinity_map_provided := true }

/-- C3: the micro-grammar fallback is `name = "Unknown Volcano"` (not
`"Unknown"`), so the `volcano_name != 'Unknown'` guard that should suppress
the nearest-volcano statement on unparsed narratives never fires, and the
engine emits "Unknown Volcano Volcano is the nearest identified active
volcano to the site." even though no name was resolved. -/
theorem fallback_emits_unknown_volcano_statement :
    (parseNearestVolcano (some "No volcano information available")).toOption =
      some ⟨0, "unknown", "Unknown Volcano"⟩ ∧
    ("Unknown Volcano" ≠ "Unknown") ∧
    (nearestVolcanoStatement "Unknown Volcano").text =
      "Unknown Volcano Volcano is the nearest identified active volcano to the site." ∧
    ((processVolcanoAssessment emptySchema unparsedNarrativeAssessment).map
        (fun o => decide (nearestVolcanoStatement "Unknown Volcano" ∈
          o.common_statements))).toOption = some true := by
  decide

/-- Schema holding only a lahar rule, enough for a detailed-branch section. -/
def laharOnlySchema : HazardRulesSchema :=
  { volcano_rules :=
      [("lahar",
        { name := "Lahar", explanation := some "Lahar hazard explanation."
          recommendation := some "Lahar hazard recommendation." })] }

/-- Volcanic assessment at exactly 50.0 km with a non-safe lahar status. -/
def mayonAt50 : Assessment :=
  { id := 6001, category := .volcano, feature_type := .polygon
    location := ⟨0, 0⟩
    volcano := some
      { nearest_active_volcano :=
          some "Approximately 50.0 kilometers east of Mayon Volcano"
        lahar := some "Prone" }
    vicinity_map_provided := true }

/-- Volcanic assessment at 50.1 km with a non-safe lahar status. -/
def mayonAt50p1 : Assessment :=
  { id := 6002, category := .volcano, feature_type := .polygon
    location := ⟨0, 0⟩
    volcano := some
      { nearest_active_volcano :=
          some "Approximately 50.1 kilometers east of Mayon Volcano"
        lahar := some "Prone" }
    vicinity_map_provided := true }

/-- C6: the distance-safety threshold is a strict greater-than against
50.0 km: the branch test equals `50 < d` for every assessment and distance;
at exactly 50.0 km the engine runs the detailed per-hazard branch (here one
lahar section, no proximity-safety statement), at 50.1 km it takes the
safety-only branch (no sections, proximity-safety statement emitted). -/
theorem distance_threshold_strict_greater :
    (∀ (a : Assessment) (d : ℚ), checkDistanceBasedSafety a d = decide (50 < d)) ∧
    ((processVolcanoAssessment laharOnlySchema mayonAt50).map
        (fun o => (o.sections.length,
          decide (proximitySafetyStatement ∈ o.common_statements)))).toOption =
      some (1, false) ∧
    ((processVolcanoAssessment laharOnlySchema mayonAt50p1).map
        (fun o => (o.sections.length,
          decide (proximitySafetyStatement ∈ o.common_statements)))).toOption =
      some (0, true) := by
  refine ⟨fun a d => ?_, by decide, by decide⟩
  by_cases h : 50 < d <;> simp [checkDistanceBasedSafety, h]

/-- C8: an assessment whose category-specific payload is absent makes report
generation fail with the corresponding domain error; no report is produced. -/
theorem missing_payload_domain_error (schema : HazardRulesSchema)
    (a : Assessment) :
    (a.category = .earthquake → a.earthquake = none →
      processAssessment schema a = .error "Assessment missing earthquake data") ∧
    (a.category = .volcano → a.volcano = none →
      processAssessment schema a = .error "Assessment missing volcano data") := by
  constructor
  · intro h1 h2
    simp [processAssessment, h1, processEarthquakeAssessment, h2]
  · intro h1 h2
    simp [processAssessment, h1, processVolcanoAssessment, h2]

/-- Witness for C8 at concrete payload-less assessments of both categories. -/
theorem missing_payload_domain_error_spot :
    processAssessment emptySchema
      ⟨1, .earthquake, .polygon, ⟨0, 0⟩, none, none, false⟩ =
        .error "Assessment missing earthquake data" ∧
    processAssessment emptySchema
      ⟨2, .volcano, .polygon, ⟨0, 0⟩, none, none, false⟩ =
        .error "Assessment missing volcano data" :=
  ⟨(missing_payload_domain_error emptySchema _).1 rfl rfl,
   (missing_payload_domain_error emptySchema _).2 rfl rfl⟩

/-- Members of an OHAS-native parse all come from `_parse_row_data`. -/
theorem parseOhasNative_mem_vicinity (t : String) (l : List Assessment)
    (h : parseOhasNative t = .ok l) :
    ∀ x ∈ l, x.vicinity_map_provided = true := by
  simp only [parseOhasNative] at h
  split at h
  · exact Except.noConfusion h
  · split at h
    · exact Except.noConfusion h
    · split at h
      · exact Except.noConfusion h
      · injection h with h2
        subst h2
        intro x hx
        obtain ⟨line, -, hline⟩ := List.mem_filterMap.mp hx
        exact parseRowData_vicinity _ _ hline

/-- Members of a markdown-table parse all come from `_parse_row_data`. -/
theorem parseMarkdownTable_mem_vicinity (t : String) (l : List Assessment)
    (h : parseMarkdownTable t = .ok l) :
    ∀ x ∈ l, x.vicinity_map_provided = true := by
  simp only [parseMarkdownTable] at h
  split at h
  · exact Except.noConfusion h
  · split at h
    · exact Except.noConfusion h
    · injection h with h2
      subst h2
      intro x hx
      obtain ⟨line, -, hline⟩ := List.mem_filterMap.mp hx
      exact parseRowData_vicinity _ _ hline

/-- Members of a tab-separated parse all come from `_parse_row_data`. -/
theorem parseTsv_mem_vicinity (t : String) :
    ∀ x ∈ parseTsv t, x.vicinity_map_provided = true := by
  intro x hx
  simp only [parseTsv] at hx
  split at hx
  · exact absurd hx (List.not_mem_nil x)
  · obtain ⟨line, -, hline⟩ := List.mem_filterMap.mp hx
    exact parseRowData_vicinity _ _ hline

/-- C10: every Assessment resolved by the table parser's `_parse_row_data`
has `vicinity_map_provided = True`; for such assessments the intro statement
always takes the "vicinity map provided" wording; and every Assessment in any
`parse_from_text` result has the flag set, so the "coordinates provided"
intro variant is unreachable through the parsing pipeline. -/
theorem parsed_assessments_always_vicinity_map :
    (∀ rd a, parseRowData rd = some a → a.vicinity_map_provided = true) ∧
    (∀ a : Assessment, a.vicinity_map_provided = true →
      getIntroStatement a =
        "All hazard assessments are based on the latest available hazard maps and on the location indicated in the vicinity map provided.") ∧
    (∀ text res, parseFromText text = .ok res →
      ∀ oa ∈ res, ∀ a, oa = some a → a.vicinity_map_provided = true) := by
  refine ⟨parseRowData_vicinity, ?_, ?_⟩
  · intro a h
    simp only [getIntroStatement, h, if_true]
    rfl
  · intro text res h oa hmem a hoa
    subst hoa
    simp only [parseFromText] at h
    split at h
    · cases hn : parseOhasNative (pyStrip text) with
      | error e => rw [hn] at h; exact Except.noConfusion h
      | ok l =>
        rw [hn] at h
        injection h with h2
        subst h2
        obtain ⟨x, hx, hxa⟩ := List.mem_map.mp hmem
        injection hxa with hxa2
        subst hxa2
        exact parseOhasNative_mem_vicinity _ _ hn x hx
    · split at h
      · cases hn : parseMarkdownTable (pyStrip text) with
        | error e => rw [hn] at h; exact Except.noConfusion h
        | ok l =>
          rw [hn] at h
          injection h with h2
          subst h2
          obtain ⟨x, hx, hxa⟩ := List.mem_map.mp hmem
          injection hxa with hxa2
          subst hxa2
          exact parseMarkdownTable_mem_vicinity _ _ hn x hx
      · split at h
        · injection h with h2
          subst h2
          obtain ⟨x, hx, hxa⟩ := List.mem_map.mp hmem
          injection hxa with hxa2
          subst hxa2
          exact parseTsv_mem_vicinity _ x hx
        · injection h with h2
          subst h2
          rw [List.mem_singleton] at hmem
          have hpf : parseFieldBased (pyStrip text) = some a := hmem.symm
          simp only [parseFieldBased] at hpf
          exact parseRowData_vicinity _ _ hpf

/-- A minimal raw row for the C10 witness. -/
def vicinityWitnessRow : List (String × String) :=
  [("assessment", "1"), ("category", "Volcano"), ("location", "1.0,2.0")]

/-- The assessment `_parse_row_data` resolves from `vicinityWitnessRow`. -/
def vicinityWitnessA : Assessment :=
  ⟨1, .volcano, .polygon, ⟨1, 2⟩, none, some {}, true⟩

/-- A field-based input text for the C10 witness. -/
def vicinityWitnessText : String :=
  "Assessment: 7\nCategory: Volcano\nLocation: 1.0,2.0"

/-- The assessment `parse_from_text` resolves from `vicinityWitnessText`. -/
def vicinityWitnessA7 : Assessment :=
  ⟨7, .volcano, .polygon, ⟨1, 2⟩, none, some {}, true⟩

/-- Witness for C10 at a concrete row and a concrete field-based text. -/
theorem parsed_assessments_always_vicinity_map_spot :
    parseRowData vicinityWitnessRow = some vicinityWitnessA ∧
    vicinityWitnessA.vicinity_map_provided = true ∧
    getIntroStatement vicinityWitnessA =
      "All hazard assessments are based on the latest available hazard maps and on the location indicated in the vicinity map provided." ∧
    parseFromText vicinityWitnessText = .ok [some vicinityWitnessA7] ∧
    vicinityWitnessA7.vicinity_map_provided = true := by
  have h1 : parseRowData vicinityWitnessRow = some vicinityWitnessA := by decide
  have h4 : parseFromText vicinityWitnessText = .ok [some vicinityWitnessA7] := by
    rfl
  refine ⟨h1, parsed_assessments_always_vicinity_map.1 _ _ h1, ?_, h4, ?_⟩
  · exact parsed_assessments_always_vicinity_map.2.1 _
      (parsed_assessments_always_vicinity_map.1 _ _ h1)
  · exact parsed_assessments_always_vicinity_map.2.2 _ _ h4
      (some vicinityWitnessA7) (by simp) vicinityWitnessA7 rfl

/-- Appending on the right keeps a string non-empty. -/
theorem strAppend_ne_empty_left (a b : String) (h : a ≠ "") : a ++ b ≠ "" := by
  intro hc
  apply h
  have hd := congrArg String.data hc
  rw [String.data_append] at hd
  rcases List.append_eq_nil.mp hd with ⟨ha, -⟩
  cases a
  simp_all

/-- C7: when the PDZ special-case loop resolves a numeric radius for the
volcano, the section's status is the "Within PDZ" wording exactly when the
parsed distance is strictly below the radius and the "Outside PDZ" wording
otherwise; when the loop resolves no radius value the step yields no section
at all. -/
theorem pdz_within_iff_distance_below_radius
    (schema : HazardRulesSchema) (a : Assessment) (v : VolcanoAssessment)
    (volcanoName : String) (rule : HazardRule) (rv : JVal) (r : ℚ)
    (info : VolcanoInfo)
    (hrule : ruleGet schema.volcano_rules "pdz_danger_zone" = some rule)
    (hrv : pdzRadiusValue schema volcanoName = some rv)
    (hr : jAsNum rv = some r)
    (hv : a.volcano = some v)
    (hinfo : parseNearestVolcano v.nearest_active_volcano = .ok info)
    (hrec : pyTruthyStr rule.recommendation = true) :
    (∃ sec, processPdz schema a volcanoName = .ok (some sec) ∧
      (strStarts sec.assessment "Within PDZ" = true ↔ info.distance < r) ∧
      (strStarts sec.assessment "Outside PDZ" = true ↔ ¬ info.distance < r)) ∧
    (∀ (schema2 : HazardRulesSchema) (a2 : Assessment) (name2 : String),
      pdzRadiusValue schema2 name2 = none →
      processPdz schema2 a2 name2 = .ok none) := by
  constructor
  · obtain ⟨rstr, hrs, hne⟩ : ∃ rstr, rule.recommendation = some rstr ∧ rstr ≠ "" := by
      cases hq : rule.recommendation with
      | none => rw [hq] at hrec; exact absurd hrec (by simp [pyTruthyStr])
      | some s =>
        rw [hq] at hrec
        exact ⟨s, rfl, of_decide_eq_true hrec⟩
    simp only [processPdz, hrule, hrv, hv, hinfo, hr, hrs, Option.getD_some]
    by_cases hd : info.distance < r
    · rw [if_pos hd]
      obtain ⟨er, her⟩ := fromParts_ok_of_right
        (some (strReplace (strReplace (rule.explanation.getD "")
          "{volcano_name}" volcanoName) "{radius}" (intToStr (pyTrunc r)))) rstr hne
      rw [her]
      refine ⟨_, rfl, ?_, ?_⟩
      · rw [pdzWithinStatus, strStarts_append _ _ _ (by decide)]
        simp [hd]
        decide
      · rw [pdzWithinStatus, strStarts_append _ _ _ (by decide)]
        simp [hd]
        decide
    · rw [if_neg hd]
      obtain ⟨er, her⟩ := fromParts_ok_of_left
        (("The Permanent Danger Zone (PDZ) is a zone that can always be affected by small-scale eruptions of "
            ++ volcanoName ++ " Volcano. Human settlement is not recommended within the PDZ.")
          ++ " " ++ ("The site is outside the " ++ intToStr (pyTrunc r) ++
            "-kilometer radius Permanent Danger Zone of the volcano.")) none
        (by
          repeat' apply strAppend_ne_empty_left
          decide)
      rw [her]
      refine ⟨_, rfl, ?_, ?_⟩
      · rw [pdzOutsideStatus, strStarts_append _ _ _ (by decide)]
        simp [hd]
        decide
      · rw [pdzOutsideStatus, strStarts_append _ _ _ (by decide)]
        simp [hd]
        decide
  · intro schema2 a2 name2 hnone
    simp only [processPdz]
    split
    · rfl
    · rw [hnone]

/-- PDZ rule with a 6 km special-case radius for Mayon. -/
def pdzWitnessRule : HazardRule :=
  { name := "PDZ"
    explanation := some "The {radius}-km Permanent Danger Zone of {volcano_name}."
    recommendation := some "Relocation is recommended."
    special_cases := some [("mayon", .jobj [("radius_km", .jnum 6)])] }

/-- Schema holding only the PDZ witness rule. -/
def pdzWitnessSchema : HazardRulesSchema :=
  { volcano_rules := [("pdz_danger_zone", pdzWitnessRule)] }

/-- The volcano payload of the PDZ witness (5.5 km from Mayon). -/
def pdzWitnessV : VolcanoAssessment :=
  { nearest_active_volcano := some "Approximately 5.5 kilometers east of Mayon Volcano" }

/-- The PDZ witness assessment. -/
def pdzWitnessA : Assessment :=
  ⟨7001, .volcano, .polygon, ⟨0, 0⟩, none, some pdzWitnessV, true⟩

/-- Witness for C7: Mayon at 5.5 km with a 6 km radius gets a Within-PDZ
section, and a schema with no PDZ special case yields no section. -/
theorem pdz_within_iff_distance_below_radius_spot :
    (processPdz pdzWitnessSchema pdzWitnessA "Mayon").map
      (fun osec => osec.map (fun sec => strStarts sec.assessment "Within PDZ")) =
        .ok (some true) ∧
    processPdz emptySchema pdzWitnessA "Mayon" = .ok none := by
  obtain ⟨⟨sec, hsec, hw, -⟩, hnone⟩ :=
    pdz_within_iff_distance_below_radius pdzWitnessSchema pdzWitnessA
      pdzWitnessV "Mayon" pdzWitnessRule (.jnum 6) 6 ⟨mkRat 11 2, "east", "Mayon"⟩
      rfl rfl rfl rfl rfl (by decide)
  constructor
  · have hb : strStarts sec.assessment "Within PDZ" = true := hw.mpr (by decide)
    rw [hsec]
    simp only [Except.map, Option.map, hb]
  · exact hnone emptySchema pdzWitnessA "Mayon" rfl

/-- Counterexample for C4: the status "Flooded" is non-empty, contains none
of the recognized keywords and matches no template, yet `match_status` (via
`_fuzzy_match`) returns no match rather than the "safe" key. -/
theorem unmatched_status_returns_none_spot :
    "Flooded" ≠ "" ∧
    strContains (pyLower "Flooded") "safe" = false ∧
    strContains (pyLower "Flooded") "potential" = false ∧
    strContains (pyLower "Flooded") "susceptible" = false ∧
    strContains (pyLower "Flooded") "prone" = false ∧
    strContains (pyLower "Flooded") "buffer" = false ∧
    strContains (pyLower "Flooded") "zone" = false ∧
    strContains (pyLower "Flooded") "pdz" = false ∧
    strContains (pyLower "Flooded") "transected" = false ∧
    matchStatus "Flooded" [] = none ∧
    fuzzyMatch "Flooded" [] = none := by
  decide

/-- C4 (amended): for a non-empty status with none of the recognized
keywords, the entity-specific matchers (liquefaction, landslide, tsunami,
lahar for every volcano) default to the "safe" key, while the generic
`_fuzzy_match` / `match_status` return no match (`None`), not "safe". -/
theorem unmatched_status_defaults (s : String) (hne : s ≠ "")
    (hsafe : strContains (pyLower s) "safe" = false)
    (hpot : strContains (pyLower s) "potential" = false)
    (hsus : strContains (pyLower s) "susceptible" = false)
    (hpr : strContains (pyLower s) "prone" = false)
    (hbuf : strContains (pyLower s) "buffer" = false)
    (hzone : strContains (pyLower s) "zone" = false)
    (hpdz : strContains (pyLower s) "pdz" = false)
    (htr : strContains (pyLower s) "transected" = false) :
    matchLiquefaction s = "safe" ∧ matchLandslide s = "safe" ∧
    matchTsunami s = "safe" ∧ (∀ vn, matchLahar s vn = "safe") ∧
    (∀ conds, fuzzyMatch s conds = none) ∧
    (∀ conds, (∀ kc ∈ conds, kc.2.template ≠ s) →
      matchStatus s conds = none) := by
  have hhp : strContains (pyLower s) "high potential" = false :=
    not_strContains_of (by decide) hpot
  have hmp : strContains (pyLower s) "moderate potential" = false :=
    not_strContains_of (by decide) hpot
  have hlp : strContains (pyLower s) "low potential" = false :=
    not_strContains_of (by decide) hpot
  have hhs : strContains (pyLower s) "highly susceptible" = false :=
    not_strContains_of (by decide) hsus
  have hms : strContains (pyLower s) "moderately susceptible" = false :=
    not_strContains_of (by decide) hsus
  have hls : strContains (pyLower s) "least susceptible" = false :=
    not_strContains_of (by decide) hsus
  have hhpr : strContains (pyLower s) "highly prone" = false :=
    not_strContains_of (by decide) hpr
  have hmpr : strContains (pyLower s) "moderately prone" = false :=
    not_strContains_of (by decide) hpr
  have hlpr : strContains (pyLower s) "least prone" = false :=
    not_strContains_of (by decide) hpr
  have hza : strContains (pyLower s) "zone of avoidance" = false :=
    not_strContains_of (by decide) hzone
  have hwp : strContains (pyLower s) "within pdz" = false :=
    not_strContains_of (by decide) hpdz
  have hdz : strContains (pyLower s) "permanent danger zone" = false :=
    not_strContains_of (by decide) hzone
  have hns : pyLower s ≠ "safe" := by
    intro he
    rw [he] at hsafe
    exact absurd hsafe (by decide)
  have hfuzzy : ∀ conds, fuzzyMatch s conds = none := by
    intro conds
    simp [fuzzyMatch, hns, hsafe, hpot, hsus, hpr, hbuf, hzone, hpdz, htr,
      hhp, hmp, hlp, hhs, hms, hls, hhpr, hmpr, hlpr, hza, hwp, hdz]
  refine ⟨?_, ?_, ?_, ?_, hfuzzy, ?_⟩
  · simp [matchLiquefaction, hsafe, hhp, hmp, hlp]
  · simp [matchLandslide, hsafe, hsus, hhs, hms, hls]
  · simp [matchTsunami, hsafe, hpr]
  · intro vn
    simp [matchLahar, hsafe, hpr, hzone, hhpr, hmpr, hlpr]
  · intro conds hcond
    by_cases hdd : s = "--"
    · simp [matchStatus, hdd]
    · have hfind : conds.find? (fun kc => kc.2.template = s) = none :=
        List.find?_eq_none.mpr (fun x hx => by simpa using hcond x hx)
      simp [matchStatus, hne, hdd, hfind, hfuzzy]

/-- Witness for C4's amended claim at the concrete status "Flooded". -/
theorem unmatched_status_defaults_spot :
    matchLiquefaction "Flooded" = "safe" ∧
    matchLahar "Flooded" "Kanlaon" = "safe" ∧
    fuzzyMatch "Flooded" [] = none ∧
    matchStatus "Flooded" [] = none := by
  obtain ⟨h1, -, -, h4, h5, h6⟩ :=
    unmatched_status_defaults "Flooded" (by decide) (by decide) (by decide)
      (by decide) (by decide) (by decide) (by decide) (by decide) (by decide)
  exact ⟨h1, h4 "Kanlaon", h5 [], h6 [] (by simp)⟩

/-- Counterexample for C5: a status containing "highly prone" together with
an earlier-tested phrase resolves to that earlier key, not `highly_prone`
(the ordered potential/susceptibility predicates run first); and the lahar
matcher's generic-volcano branch maps "Highly Prone" to the generic `prone`
key. -/
theorem highly_prone_not_always_spot :
    strContains (pyLower "Highly Prone; Moderate Potential") "highly prone" = true ∧
    fuzzyMatch "Highly Prone; Moderate Potential" [] = some "moderate_potential" ∧
    fuzzyMatch "Highly Prone; Moderate Potential" [] ≠ some "highly_prone" ∧
    matchLahar "Highly Prone" "Kanlaon" = "prone" := by
  decide

/-- C5 (amended): for every status containing "highly prone", `_fuzzy_match`
never returns the generic `prone` key (the ordered list tests the specific
phrase first), and returns `highly_prone` whenever no earlier
potential/susceptibility predicate also fires; the Mayon branch of
`match_lahar` maps such a status to `highly_prone`. -/
theorem highly_prone_never_generic_prone (s : String)
    (conds : List (String × HazardCondition))
    (h : strContains (pyLower s) "highly prone" = true) :
    fuzzyMatch s conds ≠ some "prone" ∧
    (strContains (pyLower s) "potential" = false →
     strContains (pyLower s) "susceptible" = false →
     fuzzyMatch s conds = some "highly_prone") ∧
    (∀ vn, strContains (pyLower vn) "mayon" = true →
      strContains (pyLower vn) "pinatubo" = false →
      matchLahar s vn = "highly_prone") := by
  refine ⟨?_, ?_, ?_⟩
  · simp only [fuzzyMatch]
    split_ifs <;> decide
  · intro hpot hsus
    have hhp : strContains (pyLower s) "high potential" = false :=
      not_strContains_of (by decide) hpot
    have hmp : strContains (pyLower s) "moderate potential" = false :=
      not_strContains_of (by decide) hpot
    have hlp : strContains (pyLower s) "low potential" = false :=
      not_strContains_of (by decide) hpot
    have hhs : strContains (pyLower s) "highly susceptible" = false :=
      not_strContains_of (by decide) hsus
    have hms : strContains (pyLower s) "moderately susceptible" = false :=
      not_strContains_of (by decide) hsus
    have hls : strContains (pyLower s) "least susceptible" = false :=
      not_strContains_of (by decide) hsus
    have hns : pyLower s ≠ "safe" := by
      intro he
      rw [he] at h
      exact absurd h (by decide)
    simp [fuzzyMatch, hns, hhp, hmp, hlp, hhs, hms, hls, h]
  · intro vn hm hp
    simp [matchLahar, hm, hp, h]

/-- Witness for C5's amended claim at the status "Highly Prone". -/
theorem highly_prone_never_generic_prone_spot :
    fuzzyMatch "Highly Prone" [] ≠ some "prone" ∧
    fuzzyMatch "Highly Prone" [] = some "highly_prone" ∧
    matchLahar "Highly Prone" "Mayon" = "highly_prone" := by
  obtain ⟨h1, h2, h3⟩ :=
    highly_prone_never_generic_prone "Highly Prone" [] (by decide)
  exact ⟨h1, h2 (by decide) (by decide), h3 "Mayon" (by decide) (by decide)⟩

/-- Rule-map well-formedness for `from_dict`: every rule value that is an
object has its `conditions` entry absent or an object (this is the only way
`from_dict` can raise on that side). -/
def rulesWellFormed (rules : List (String × JVal)) : Bool :=
  rules.all fun kv =>
    match kv.2 with
    | .jobj rd =>
      match jGet rd "conditions" with
      | none => true
      | some (.jobj _) => true
      | some _ => false
    | _ => true

/-- The hazard-key loop over an object succeeds exactly when every key is a
key of the object. -/
theorem checkHazardKeys_obj_ok (kvs : List (String × JVal)) (msg : String)
    (keys : List String) :
    checkHazardKeys (.jobj kvs) msg keys = .ok () ↔
      ∀ k ∈ keys, kvs.any (fun kv => kv.1 = k) = true := by
  induction keys with
  | nil => simp [checkHazardKeys]
  | cons k ks ih =>
    show (Except.ok (kvs.any (fun kv => kv.1 = k)) >>= fun b =>
      if b = true then checkHazardKeys (.jobj kvs) msg ks
      else .error (msg ++ k)) = .ok () ↔ _
    by_cases hb : kvs.any (fun kv => kv.1 = k) = true
    · rw [hb]
      show (if true = true then checkHazardKeys (.jobj kvs) msg ks
        else .error (msg ++ k)) = .ok () ↔ _
      rw [if_pos rfl, ih]
      constructor
      · intro hks k2 hk2
        rcases List.mem_cons.mp hk2 with h1 | h2
        · exact h1 ▸ hb
        · exact hks k2 h2
      · intro hall k2 hk2
        exact hall k2 (List.mem_cons_of_mem _ hk2)
    · rw [Bool.not_eq_true] at hb
      rw [hb]
      show (if false = true then checkHazardKeys (.jobj kvs) msg ks
        else .error (msg ++ k)) = .ok () ↔ _
      rw [if_neg (by simp)]
      constructor
      · intro hcontra
        exact Except.noConfusion hcontra
      · intro hall
        have := hall k (by simp)
        rw [hb] at this
        exact Bool.noConfusion this

/-- `buildConditions` succeeds when the rule object's `conditions` entry is
absent or an object. -/
theorem buildConditions_ok (rd : List (String × JVal))
    (h : (match jGet rd "conditions" with
          | none => true
          | some (.jobj _) => true
          | some _ => false) = true) :
    ∃ cs, buildConditions rd = .ok cs := by
  cases hg : jGet rd "conditions" with
  | none => exact ⟨[], by simp [buildConditions, hg]⟩
  | some v =>
    rw [hg] at h
    cases v with
    | jobj conds =>
      unfold buildConditions
      rw [hg]
      exact ⟨_, rfl⟩
    | jstr s => simp at h
    | jnum q => simp at h
    | jbool b => simp at h
    | jnull => simp at h
    | jarr xs => simp at h

/-- The rule-side loop succeeds when every entry's conditions are
well-shaped. -/
theorem buildRuleList_ok (isVolcanoSide : Bool)
    (entries : List (String × List (String × JVal)))
    (h : ∀ kr ∈ entries,
      (match jGet kr.2 "conditions" with
       | none => true
       | some (.jobj _) => true
       | some _ => false) = true) :
    ∃ rs, buildRuleList isVolcanoSide entries = .ok rs := by
  induction entries with
  | nil => exact ⟨[], rfl⟩
  | cons kr rest ih =>
    obtain ⟨cs, hcs⟩ := buildConditions_ok kr.2 (h kr (by simp))
    obtain ⟨rs, hrs⟩ := ih (fun z hz => h z (List.mem_cons_of_mem _ hz))
    obtain ⟨r, hbr⟩ : ∃ r, buildRawRule isVolcanoSide kr.1 kr.2 = .ok r := by
      unfold buildRawRule
      rw [hcs]
      exact ⟨_, rfl⟩
    refine ⟨(kr.1, r) :: rs, ?_⟩
    have hstep : buildRuleList isVolcanoSide (kr :: rest) =
        (buildRawRule isVolcanoSide kr.1 kr.2 >>= fun r2 =>
          buildRuleList isVolcanoSide rest >>= fun rs2 =>
            .ok ((kr.1, r2) :: rs2)) := rfl
    rw [hstep, hbr, hrs]
    rfl

/-- Whether an `Except` computation succeeded. -/
def exceptOk {ε α : Type} : Except ε α → Bool
  | .ok _ => true
  | .error _ => false

/-- `from_dict`'s rule side succeeds on an object whose rules are
well-formed. -/
theorem buildRuleSide_ok (isVolcanoSide : Bool)
    (rules : List (String × JVal)) (hwf : rulesWellFormed rules = true) :
    ∃ rs, buildRuleSide isVolcanoSide (.jobj rules) = .ok rs := by
  have hall : ∀ kr ∈ rules.filterMap
      (fun kv => (jAsObj kv.2).map (fun rd => (kv.1, rd))),
      (match jGet kr.2 "conditions" with
       | none => true
       | some (.jobj _) => true
       | some _ => false) = true := by
    intro kr hkr
    obtain ⟨kv, hkv, hmap⟩ := List.mem_filterMap.mp hkr
    have hwfkv := List.all_eq_true.mp hwf kv hkv
    cases hval : kv.2 <;> rw [hval] at hmap <;> simp [jAsObj] at hmap
    rw [hval] at hwfkv
    rw [← hmap]
    exact hwfkv
  obtain ⟨rs, hrs⟩ := buildRuleList_ok isVolcanoSide _ hall
  exact ⟨rs, hrs⟩

/-- `from_dict` succeeds when both rule maps are well-formed objects. -/
theorem fromDict_ok (data : List (String × JVal))
    (eqs vqs : List (String × JVal))
    (he : jGet data "earthquake_rules" = some (.jobj eqs))
    (hv : jGet data "volcano_rules" = some (.jobj vqs))
    (hwe : rulesWellFormed eqs = true) (hwv : rulesWellFormed vqs = true) :
    ∃ s, fromDict data = .ok s := by
  obtain ⟨rs1, h1⟩ := buildRuleSide_ok false eqs hwe
  obtain ⟨rs2, h2⟩ := buildRuleSide_ok true vqs hwv
  unfold fromDict
  rw [he, hv]
  simp only [Option.getD_some]
  rw [h1, h2]
  exact ⟨_, rfl⟩

/-- `_validate_structure` succeeds exactly when every required top-level key
is present and every hazard key is a key of its category's rule map. -/
theorem validateStructure_ok_iff (data : List (String × JVal))
    (eqs vqs : List (String × JVal))
    (he : jGet data "earthquake_rules" = some (.jobj eqs))
    (hv : jGet data "volcano_rules" = some (.jobj vqs)) :
    validateStructure data = .ok () ↔
      ((∀ k ∈ requiredTopKeys, (jGet data k).isSome = true) ∧
       (∀ k ∈ earthquakeHazardKeys, eqs.any (fun kv => kv.1 = k) = true) ∧
       (∀ k ∈ volcanoHazardKeys, vqs.any (fun kv => kv.1 = k) = true)) := by
  unfold validateStructure
  cases hfind : requiredTopKeys.find? (fun k => (jGet data k).isNone) with
  | some k =>
    constructor
    · intro hc; exact Except.noConfusion hc
    · rintro ⟨hreq, -, -⟩
      have hmem := List.mem_of_find?_eq_some hfind
      have hprop := List.find?_some hfind
      have := hreq k hmem
      cases hk : jGet data k <;> rw [hk] at hprop this <;> simp_all
  | none =>
    have hreq : ∀ k ∈ requiredTopKeys, (jGet data k).isSome = true := by
      intro k hk
      have := List.find?_eq_none.mp hfind k hk
      cases hjk : jGet data k <;> rw [hjk] at this <;> simp_all
    rw [he, hv]
    simp only [Option.getD_some]
    cases hc1 : checkHazardKeys (.jobj eqs)
        "Missing earthquake hazard rule: " earthquakeHazardKeys with
    | error e =>
      constructor
      · intro hc; exact Except.noConfusion hc
      · rintro ⟨-, h2, -⟩
        have h3 := (checkHazardKeys_obj_ok eqs
          "Missing earthquake hazard rule: " earthquakeHazardKeys).mpr h2
        rw [hc1] at h3
        exact Except.noConfusion h3
    | ok u =>
      cases u
      have h1 := (checkHazardKeys_obj_ok eqs
        "Missing earthquake hazard rule: " earthquakeHazardKeys).mp hc1
      constructor
      · intro h2
        have h2b : checkHazardKeys (.jobj vqs)
            "Missing volcano hazard rule: " volcanoHazardKeys = .ok () := h2
        exact ⟨hreq, h1, (checkHazardKeys_obj_ok vqs
          "Missing volcano hazard rule: " volcanoHazardKeys).mp h2b⟩
      · rintro ⟨-, -, h2⟩
        exact ((checkHazardKeys_obj_ok vqs
          "Missing volcano hazard rule: " volcanoHazardKeys).mpr h2 :
            checkHazardKeys (.jobj vqs)
              "Missing volcano hazard rule: " volcanoHazardKeys = .ok ())

/-- A parsed schema document with every required top-level key and every
hazard key present in both rule maps, but a non-dict `conditions` value in
one earthquake rule. -/
def schemaBadConditionsDoc : List (String × JVal) :=
  [("metadata", .jobj []),
   ("earthquake_rules", .jobj (earthquakeHazardKeys.map
      (fun k => (k, .jobj [("conditions", .jnum 5)])))),
   ("volcano_rules", .jobj (volcanoHazardKeys.map (fun k => (k, .jobj [])))),
   ("decision_logic", .jobj []),
   ("fuzzy_logic_parameters", .jobj [])]

/-- Counterexample for C9: this document passes `_validate_structure` (all
required top-level keys present, all hazard keys present in both rule maps),
yet `load` still raises SchemaValidationError because `from_dict` fails on
the non-dict `conditions` value and `load`'s broad `except Exception` wraps
it; "fails exactly when a key is missing" is therefore false. -/
theorem schema_load_fails_despite_all_keys_spot :
    exceptOk (validateStructure schemaBadConditionsDoc) = true ∧
    exceptOk (loadSchema schemaBadConditionsDoc) = false := by
  decide

/-- The earthquake rule map of the well-formed C9 witness document. -/
def schemaGoodEqRules : List (String × JVal) :=
  earthquakeHazardKeys.map (fun k => (k, .jobj []))

/-- The volcano rule map of the well-formed C9 witness document. -/
def schemaGoodVolcanoRules : List (String × JVal) :=
  volcanoHazardKeys.map (fun k => (k, .jobj []))

/-- A parsed schema document with all required keys and object rule maps. -/
def schemaGoodDoc : List (String × JVal) :=
  [("metadata", .jobj []),
   ("earthquake_rules", .jobj schemaGoodEqRules),
   ("volcano_rules", .jobj schemaGoodVolcanoRules),
   ("decision_logic", .jobj []),
   ("fuzzy_logic_parameters", .jobj [])]

/-- C9 (amended): for a parsed document whose two rule-map values are objects
with well-shaped rules (the shapes on which `from_dict` itself cannot raise),
loading succeeds exactly when every required top-level key is present and
every enumerated hazard key is a key of its category's rule map; documents
with all keys present but ill-shaped rule values still fail (see the
counterexample), which the original claim's "exactly when" excludes. -/
theorem schema_load_ok_iff (data : List (String × JVal))
    (eqs vqs : List (String × JVal))
    (he : jGet data "earthquake_rules" = some (.jobj eqs))
    (hv : jGet data "volcano_rules" = some (.jobj vqs))
    (hwe : rulesWellFormed eqs = true) (hwv : rulesWellFormed vqs = true) :
    exceptOk (loadSchema data) = true ↔
      ((∀ k ∈ requiredTopKeys, (jGet data k).isSome = true) ∧
       (∀ k ∈ earthquakeHazardKeys, eqs.any (fun kv => kv.1 = k) = true) ∧
       (∀ k ∈ volcanoHazardKeys, vqs.any (fun kv => kv.1 = k) = true)) := by
  have hvi := validateStructure_ok_iff data eqs vqs he hv
  constructor
  · intro hok
    unfold loadSchema at hok
    cases hval : validateStructure data with
    | error e => rw [hval] at hok; exact absurd hok (by simp [exceptOk])
    | ok u =>
      cases u
      exact hvi.mp hval
  · intro hrhs
    have hval : validateStructure data = .ok () := hvi.mpr hrhs
    obtain ⟨s, hs⟩ := fromDict_ok data eqs vqs he hv hwe hwv
    unfold loadSchema
    rw [hval, hs]
    rfl

/-- Witness for C9's amended claim: the well-formed document with all keys
loads successfully. -/
theorem schema_load_ok_iff_spot :
    exceptOk (loadSchema schemaGoodDoc) = true := by
  exact (schema_load_ok_iff schemaGoodDoc schemaGoodEqRules
    schemaGoodVolcanoRules rfl rfl (by decide) (by decide)).mpr
    ⟨by decide, by decide, by decide⟩
